import Mathlib

/-!
Consumer-chain parameters of interchain-security, and the fixtures of its
downtime and reward-distribution tests.

A shallow embedding of `x/ccv/types/params.go`, of the expected states of
`tests/e2e/steps_downtime.go` and of the arithmetic of
`tests/integration/distribution.go`, with their properties.

* Go `error` values are `Option String`: `none` is `nil`, `some msg` an error
  carrying the message `msg`.
* A Go call either returns or panics; `Go α` records which.
* An `interface{}` argument is a `Value`, a sum of the dynamic types that reach
  the validators.
* `sdktypes.Dec` is a big integer scaled by `10^18`, as in the Cosmos SDK.
-/

namespace CCV

/-! ## Go runtime model -/

/-- Go `error`: `none` is `nil`, `some msg` is a non-nil error with message `msg`. -/
abbrev Error := Option String

/-- Outcome of running a Go function: it returns a value or it panics. -/
inductive Go (α : Type) where
  | ret (a : α)
  | panic (msg : String)
  deriving DecidableEq, Repr

/-- Dynamic values carried by a Go `interface{}`. -/
inductive Value where
  | nil
  | bool (b : Bool)
  | int64 (n : Int)
  | string (s : String)
  | duration (d : Int)
  | strings (v : List String)
  | other (typeName : String)
  deriving DecidableEq, Repr

/-- What `%T` prints for a value. -/
def Value.typeName : Value → String
  | .nil => "<nil>"
  | .bool _ => "bool"
  | .int64 _ => "int64"
  | .string _ => "string"
  | .duration _ => "time.Duration"
  | .strings _ => "[]string"
  | .other t => t

/-- The error built by `fmt.Errorf("invalid parameter type: %T", i)`. -/
def invalidParameterType (i : Value) : String :=
  "invalid parameter type: " ++ i.typeName

/-! ## `sdktypes.Dec` (cosmos-sdk `types/decimal.go`, an imported library) -/

/-- Number of decimal places of a `Dec`. -/
def Precision : Nat := 18

/-- Largest bit length a `Dec` may have: `maxBitLen + decimalTruncateBits = 256 + 59`. -/
def maxDecBitLen : Nat := 315

/-- Type `sdktypes.Dec`: the integer `i` stands for the decimal `i / 10^18`. -/
structure Dec where
  i : Int
  deriving DecidableEq, Repr

/-- The rational number a `Dec` denotes. -/
def Dec.toRat (d : Dec) : ℚ := (d.i : ℚ) / (10 : ℚ) ^ Precision

/-- Number of halvings that take `n` to zero, within `fuel` steps. -/
def bitLenAux : Nat → Nat → Nat
  | 0, _ => 0
  | fuel + 1, n => if n = 0 then 0 else bitLenAux fuel (n / 2) + 1

/-- Method `big.Int.BitLen`: length in bits of the absolute value. -/
def BitLen (z : Int) : Nat := bitLenAux z.natAbs z.natAbs

/-- Method `Dec.IsNegative`: the sign of the underlying integer is `-1`. -/
def Dec.IsNegative (d : Dec) : Bool := decide (d.i < 0)

/-- Method `Dec.Sub`: exact subtraction, panicking when the result is too wide. -/
def Dec.Sub (d d2 : Dec) : Go Dec :=
  let res := d.i - d2.i
  if BitLen res > maxDecBitLen then .panic "Int overflow" else .ret ⟨res⟩

/-- Go `len` of a string: its number of bytes in UTF-8. -/
def len (cs : List Char) : Nat := (cs.map Char.utf8Size).sum

/-- Function `strings.Split(s, ".")`: the pieces of `s` between dots, at least one piece. -/
def splitDot : List Char → List (List Char)
  | [] => [[]]
  | c :: cs =>
    match splitDot cs with
    | [] => [[c]]
    | p :: ps => if c = '.' then [] :: p :: ps else (c :: p) :: ps

/-- Value of a decimal digit. -/
def digitVal (c : Char) : Option Nat :=
  if '0' ≤ c ∧ c ≤ '9' then some (c.toNat - '0'.toNat) else none

/-- Scan a run of decimal digits that must reach the end of the input. -/
def scanDigits : List Char → Nat → Option Nat
  | [], acc => some acc
  | c :: cs, acc =>
    match digitVal c with
    | some d => scanDigits cs (acc * 10 + d)
    | none => none

/-- Call `new(big.Int).SetString(s, 10)`: an optional sign followed by one or more
decimal digits, and nothing else. -/
def SetString (s : List Char) : Option Int :=
  let signed : Bool × List Char :=
    match s with
    | '-' :: r => (true, r)
    | '+' :: r => (false, r)
    | _ => (false, s)
  match signed.2 with
  | [] => none
  | c :: cs =>
    match scanDigits (c :: cs) 0 with
    | some n => some (if signed.1 then -(n : Int) else (n : Int))
    | none => none

def ErrEmptyDecimalStr : String := "decimal string cannot be empty"

def ErrInvalidDecimalLength : String := "invalid decimal length"

def ErrInvalidDecimalStr : String := "invalid decimal string"

/-- Second half of `sdktypes.NewDecFromStr`: from the precision check on, given
the number of fractional digits and the digits with the dot removed. -/
def NewDecFromStr.combine (neg : Bool) (lenDecs : Nat) (combinedStr : List Char) :
    Except String Dec :=
  if lenDecs > Precision then
    .error ("invalid precision; max: " ++ toString Precision ++ ", got: " ++ toString lenDecs)
  else
    let zerosToAdd := Precision - lenDecs
    let combinedStr := combinedStr ++ List.replicate zerosToAdd '0'
    match SetString combinedStr with
    | none => .error ("failed to set decimal string: " ++ String.mk combinedStr)
    | some combined =>
      if BitLen combined > maxDecBitLen then
        .error ("decimal out of range; bitLen: got " ++ toString (BitLen combined)
          ++ ", max " ++ toString maxDecBitLen)
      else .ok ⟨if neg then -combined else combined⟩

/-- First half of `sdktypes.NewDecFromStr`, after the leading-minus step: split
at the dots and check the lengths of the pieces. -/
def NewDecFromStr.body (neg : Bool) (str : List Char) : Except String Dec :=
  if len str = 0 then .error ErrEmptyDecimalStr
  else
    match splitDot str with
    | [] => .error ErrInvalidDecimalStr
    | [intPart] => NewDecFromStr.combine neg 0 intPart
    | [intPart, frac] =>
      if len frac = 0 ∨ len intPart = 0 then .error ErrInvalidDecimalLength
      else NewDecFromStr.combine neg (len frac) (intPart ++ frac)
    | _ :: _ :: _ :: _ => .error ErrInvalidDecimalStr

/-- Function `sdktypes.NewDecFromStr`: parse a decimal with at most 18 fractional digits. -/
def NewDecFromStr (str : String) : Except String Dec :=
  if len str.data = 0 then .error ErrEmptyDecimalStr
  else
    match str.data with
    | '-' :: r => NewDecFromStr.body true r
    | s => NewDecFromStr.body false s

/-- Function `sdktypes.MustNewDecFromStr`: as `NewDecFromStr`, panicking on an error. -/
def MustNewDecFromStr (s : String) : Go Dec :=
  match NewDecFromStr s with
  | .ok d => .ret d
  | .error e => .panic e

/-! ## `x/ccv/types/params.go` -/

/-- Type `sdktypes.Coin`; the amount is an arbitrary-precision integer. -/
structure Coin where
  Denom : String
  Amount : Int
  deriving DecidableEq, Repr

/-- The consumer module parameters (the generated `Params` message). Durations
are nanosecond counts, as `time.Duration` is. -/
structure Params where
  Enabled : Bool
  BlocksPerDistributionTransmission : Int
  DistributionTransmissionChannel : String
  ProviderFeePoolAddrStr : String
  CcvTimeoutPeriod : Int
  TransferTimeoutPeriod : Int
  ConsumerRedistributionFraction : String
  HistoricalEntries : Int
  UnbondingPeriod : Int
  SoftOptOutThreshold : String
  RewardDenoms : List String
  ProviderRewardDenoms : List String
  deriving DecidableEq, Repr

/-- Functions that `params.go` calls but does not define: the validators of
`shared_params.go` and `Coin.Validate` of the Cosmos SDK. Each has the Go
signature `func(...) error`. -/
structure Deps where
  ValidateBool : Value → Error
  ValidatePositiveInt64 : Value → Error
  ValidateDistributionTransmissionChannel : Value → Error
  ValidateBech32 : Value → Error
  ValidateDuration : Value → Error
  ValidateStringFraction : Value → Error
  CoinValidate : Coin → Error

/-- Constant `time.Hour` in nanoseconds. -/
def Hour : Int := 3600 * 1000000000

def DefaultBlocksPerDistributionTransmission : Int := 1000

def DefaultTransferTimeoutPeriod : Int := Hour

def DefaultConsumerRedistributeFrac : String := "0.75"

/-- Constant `stakingtypes.DefaultHistoricalEntries` of the Cosmos SDK, as an `int64`. -/
def DefaultHistoricalEntries : Int := 10000

/-- Constant `stakingtypes.DefaultUnbondingTime` of the Cosmos SDK: three weeks. -/
def stakingDefaultUnbondingTime : Int := Hour * 24 * 7 * 3

def DefaultConsumerUnbondingPeriod : Int := stakingDefaultUnbondingTime - 24 * Hour

def DefaultSoftOptOutThreshold : String := "0.05"

/-- Function `NewParams` creates new consumer parameters with provided arguments. -/
def NewParams (enabled : Bool) (blocksPerDistributionTransmission : Int)
    (distributionTransmissionChannel providerFeePoolAddrStr : String)
    (ccvTimeoutPeriod transferTimeoutPeriod : Int)
    (consumerRedistributionFraction : String) (historicalEntries : Int)
    (consumerUnbondingPeriod : Int) (softOptOutThreshold : String)
    (rewardDenoms providerRewardDenoms : List String) : Params :=
  { Enabled := enabled
    BlocksPerDistributionTransmission := blocksPerDistributionTransmission
    DistributionTransmissionChannel := distributionTransmissionChannel
    ProviderFeePoolAddrStr := providerFeePoolAddrStr
    CcvTimeoutPeriod := ccvTimeoutPeriod
    TransferTimeoutPeriod := transferTimeoutPeriod
    ConsumerRedistributionFraction := consumerRedistributionFraction
    HistoricalEntries := historicalEntries
    UnbondingPeriod := consumerUnbondingPeriod
    SoftOptOutThreshold := softOptOutThreshold
    RewardDenoms := rewardDenoms
    ProviderRewardDenoms := providerRewardDenoms }

/-- Function `DefaultParams`; the constant `DefaultCCVTimeoutPeriod` is declared in
`shared_params.go` and is taken as an argument. -/
def DefaultParams (DefaultCCVTimeoutPeriod : Int) : Params :=
  let rewardDenoms : List String := []
  let provideRewardDenoms : List String := []
  NewParams
    false
    DefaultBlocksPerDistributionTransmission
    ""
    ""
    DefaultCCVTimeoutPeriod
    DefaultTransferTimeoutPeriod
    DefaultConsumerRedistributeFrac
    DefaultHistoricalEntries
    DefaultConsumerUnbondingPeriod
    DefaultSoftOptOutThreshold
    rewardDenoms
    provideRewardDenoms

/-- Function `ValidateProviderFeePoolAddrStr`: the empty string is accepted, anything
else goes to `ValidateBech32`. -/
def ValidateProviderFeePoolAddrStr (D : Deps) (i : Value) : Error :=
  if i = Value.string "" then none
  else D.ValidateBech32 i

/-- Function `ValidateSoftOptOutThreshold` of `params.go`. -/
def ValidateSoftOptOutThreshold (i : Value) : Go Error :=
  match i with
  | .string str =>
    match NewDecFromStr str with
    | .error err => .ret (some err)
    | .ok dec =>
      if dec.IsNegative then
        .ret (some ("soft opt out threshold cannot be negative, got " ++ str))
      else
        match MustNewDecFromStr "0.2" with
        | .panic msg => .panic msg
        | .ret bound =>
          match dec.Sub bound with
          | .panic msg => .panic msg
          | .ret diff =>
            if !diff.IsNegative then
              .ret (some ("soft opt out threshold cannot be greater than 0.2, got " ++ str))
            else .ret none
  | _ => .ret (some (invalidParameterType i))

/-- The loop of `ValidateDenoms`: validate the coin of each denom in turn and
stop at the first error. -/
def ValidateDenoms.loop (D : Deps) : List String → Error
  | [] => none
  | denom :: rest =>
    match D.CoinValidate { Denom := denom, Amount := 0 } with
    | some err => some err
    | none => ValidateDenoms.loop D rest

/-- Function `ValidateDenoms` of `params.go`. -/
def ValidateDenoms (D : Deps) (i : Value) : Error :=
  match i with
  | .strings v => ValidateDenoms.loop D v
  | _ => some (invalidParameterType i)

/-- The Go idiom `if err := f(); err != nil`, return `err`; otherwise go on with `rest`. -/
def check (r : Go Error) (rest : Go Error) : Go Error :=
  match r with
  | .ret none => rest
  | .ret (some err) => .ret (some err)
  | .panic msg => .panic msg

/-- Method `Params.Validate`: validate all ccv-consumer module parameters. -/
def Params.Validate (D : Deps) (p : Params) : Go Error :=
  check (.ret (D.ValidateBool (.bool p.Enabled))) <|
  check (.ret (D.ValidatePositiveInt64 (.int64 p.BlocksPerDistributionTransmission))) <|
  check (.ret (D.ValidateDistributionTransmissionChannel
    (.string p.DistributionTransmissionChannel))) <|
  check (.ret (ValidateProviderFeePoolAddrStr D (.string p.ProviderFeePoolAddrStr))) <|
  check (.ret (D.ValidateDuration (.duration p.CcvTimeoutPeriod))) <|
  check (.ret (D.ValidateDuration (.duration p.TransferTimeoutPeriod))) <|
  check (.ret (D.ValidateStringFraction (.string p.ConsumerRedistributionFraction))) <|
  check (.ret (D.ValidatePositiveInt64 (.int64 p.HistoricalEntries))) <|
  check (.ret (D.ValidateDuration (.duration p.UnbondingPeriod))) <|
  check (ValidateSoftOptOutThreshold (.string p.SoftOptOutThreshold)) <|
  check (.ret (ValidateDenoms D (.strings p.RewardDenoms))) <|
  check (.ret (ValidateDenoms D (.strings p.ProviderRewardDenoms))) <|
  .ret none

/-! ## An instance of the absent functions -/

/-- Characters allowed after the first one in a denom by the default denom
pattern of the Cosmos SDK: a letter, then 2 to 127 characters among letters,
digits and `/`, `:`, `.`, `_`, `-`. -/
def denomTailChar (c : Char) : Bool :=
  c.isAlpha || c.isDigit || c = '/' || c = ':' || c = '.' || c = '_' || c = '-'

/-- Function `sdktypes.ValidateDenom` with the default denom pattern. -/
def validDenom (denom : String) : Bool :=
  match denom.data with
  | [] => false
  | c :: cs => c.isAlpha && cs.all denomTailChar && decide (2 ≤ cs.length ∧ cs.length ≤ 127)

/-- Method `sdktypes.Coin.Validate` with the default denom pattern: the denom must
match it and the amount must not be negative. -/
def Coin.Validate (coin : Coin) : Error :=
  if !validDenom coin.Denom then some ("invalid denom: " ++ coin.Denom)
  else if coin.Amount < 0 then some ("negative coin amount: " ++ toString coin.Amount)
  else none

/-- Modelled from the spec: the validators of `shared_params.go`, a file that is
not among the sources. The spec's validation rules give: "fractions must parse
as non-negative decimals" and "durations must be non-negative". A positive
`int64` is one greater than zero. Where the spec gives no rule (the enable
flag, the channel, the bech32 address) only the dynamic type is checked. -/
def specDeps : Deps where
  ValidateBool := fun i =>
    match i with
    | .bool _ => none
    | _ => some (invalidParameterType i)
  ValidatePositiveInt64 := fun i =>
    match i with
    | .int64 n => if n ≤ 0 then some "int must be positive" else none
    | _ => some (invalidParameterType i)
  ValidateDistributionTransmissionChannel := fun i =>
    match i with
    | .string _ => none
    | _ => some (invalidParameterType i)
  ValidateBech32 := fun i =>
    match i with
    | .string _ => none
    | _ => some (invalidParameterType i)
  ValidateDuration := fun i =>
    match i with
    | .duration d => if d < 0 then some "duration must be non-negative" else none
    | _ => some (invalidParameterType i)
  ValidateStringFraction := fun i =>
    match i with
    | .string s =>
      match NewDecFromStr s with
      | .error e => some e
      | .ok dec => if dec.IsNegative then some "param cannot be negative" else none
    | _ => some (invalidParameterType i)
  CoinValidate := Coin.Validate

/-! ## `tests/e2e/steps_downtime.go` -/

/-- Identifier of a chain in the end-to-end tests, a Go string type. -/
abbrev chainID := String

/-- Identifier of a validator in the end-to-end tests, a Go string type. -/
abbrev validatorID := String

/-- A Go map written as a composite literal: its entries in source order. Keys
that are not constants may repeat; the map then holds the later entry. -/
abbrev GoMap (K V : Type) := List (K × V)

/-- Map lookup `m[k]`: the value of the last entry of the literal with key `k`. -/
def GoMap.lookup {K V : Type} [DecidableEq K] : GoMap K V → K → Option V
  | [], _ => none
  | (k', v) :: rest, k =>
    match GoMap.lookup rest k with
    | some w => some w
    | none => if k' = k then some v else none

/-- The values held by the map, one per key: an entry overwritten by a later
one with the same key does not count. -/
def GoMap.values {K V : Type} [DecidableEq K] : GoMap K V → List V
  | [] => []
  | (k, v) :: rest =>
    if (GoMap.lookup rest k).isSome then GoMap.values rest else v :: GoMap.values rest

/-- Expected state of one chain: the fields of `ChainState` that the downtime
steps set. A field left out of a literal is a nil pointer, here `none`. -/
structure ChainState where
  ValPowers : Option (GoMap validatorID Nat) := none
  GlobalSlashQueueSize : Option Nat := none
  ConsumerChainQueueSizes : Option (GoMap chainID Nat) := none
  deriving DecidableEq, Repr

/-- Expected state after a step: `map[chainID]ChainState`. -/
abbrev State := GoMap chainID ChainState

/-- Constant `time.Second` in nanoseconds. -/
def Second : Int := 1000000000

/-- The actions used by the downtime steps, with their fields in source order. -/
inductive Action where
  | downtimeSlashAction (chain : chainID) (validator : validatorID)
  | relayPacketsAction (chainA chainB : chainID) (port : String) (channel : Nat)
  | unjailValidatorAction (provider : chainID) (validator : validatorID)
  | slashThrottleDequeue (chain : chainID) (currentQueueSize nextQueueSize : Int)
      (timeout : Int)
  deriving DecidableEq, Repr

/-- One step of an end-to-end test: an action and the state expected after it. -/
structure Step where
  action : Action
  state : State
  deriving DecidableEq, Repr

/-- Function `stepsDowntime` tests validator jailing and slashing: the downtime of
bob is reported by the consumer, that of carol is detected on the provider. -/
def stepsDowntime (consumerName : String) : List Step :=
  [
    { action := .downtimeSlashAction consumerName "bob"
      state := [
        ("provi",
          { ValPowers := some [("alice", 509), ("bob", 500), ("carol", 501)] }),
        (consumerName,
          { ValPowers := some [("alice", 509), ("bob", 500), ("carol", 501)] }) ] },
    { action := .relayPacketsAction "provi" consumerName "provider" 0
      state := [
        ("provi",
          { ValPowers := some [("alice", 509), ("bob", 0), ("carol", 501)] }),
        (consumerName,
          { ValPowers := some [("alice", 509), ("bob", 500), ("carol", 501)] }) ] },
    { action := .relayPacketsAction "provi" consumerName "provider" 0
      state := [
        (consumerName,
          { ValPowers := some [("alice", 509), ("bob", 0), ("carol", 501)] }) ] },
    { action := .unjailValidatorAction "provi" "bob"
      state := [
        ("provi",
          { ValPowers := some [("alice", 509), ("bob", 500), ("carol", 501)] }),
        (consumerName,
          { ValPowers := some [("alice", 509), ("bob", 0), ("carol", 501)] }) ] },
    { action := .relayPacketsAction "provi" consumerName "provider" 0
      state := [
        (consumerName,
          { ValPowers := some [("alice", 509), ("bob", 500), ("carol", 501)] }) ] },
    { action := .downtimeSlashAction "provi" "carol"
      state := [
        ("provi",
          { ValPowers := some [("alice", 509), ("bob", 500), ("carol", 0)] }),
        (consumerName,
          { ValPowers := some [("alice", 509), ("bob", 500), ("carol", 501)] }) ] },
    { action := .relayPacketsAction "provi" consumerName "provider" 0
      state := [
        (consumerName,
          { ValPowers := some [("alice", 509), ("bob", 500), ("carol", 0)] }) ] },
    { action := .unjailValidatorAction "provi" "carol"
      state := [
        ("provi",
          { ValPowers := some [("alice", 509), ("bob", 500), ("carol", 495)] }),
        (consumerName,
          { ValPowers := some [("alice", 509), ("bob", 500), ("carol", 0)] }) ] },
    { action := .relayPacketsAction "provi" consumerName "provider" 0
      state := [
        (consumerName,
          { ValPowers := some [("alice", 509), ("bob", 500), ("carol", 495)] }) ] } ]

/-- Function `stepsDowntimeWithOptOut` returns steps validating that alice can incur
downtime and not be slashed or jailed, since her voting power is less than 5%
of the total. -/
def stepsDowntimeWithOptOut (consumerName : String) : List Step :=
  [
    { action := .downtimeSlashAction consumerName "alice"
      state := [
        ("provi",
          { ValPowers := some [("alice", 60), ("bob", 500), ("carol", 950)] }),
        (consumerName,
          { ValPowers := some [("alice", 60), ("bob", 500), ("carol", 950)] }) ] },
    { action := .relayPacketsAction "provi" consumerName "provider" 0
      state := [
        ("provi",
          { ValPowers := some [("alice", 60), ("bob", 500), ("carol", 950)] }),
        (consumerName,
          { ValPowers := some [("alice", 60), ("bob", 500), ("carol", 950)] }) ] } ]

/-- Function `stepsThrottledDowntime` creates two consumer initiated downtime slash
events and relays packets. -/
def stepsThrottledDowntime (consumerName : String) : List Step :=
  [
    { action := .downtimeSlashAction consumerName "bob"
      state := [
        ("provi",
          { ValPowers := some [("alice", 511), ("bob", 500), ("carol", 500)] }),
        (consumerName,
          { ValPowers := some [("alice", 511), ("bob", 500), ("carol", 500)] }) ] },
    { action := .relayPacketsAction "provi" consumerName "provider" 0
      state := [
        ("provi",
          { ValPowers := some [("alice", 511), ("bob", 0), ("carol", 500)]
            GlobalSlashQueueSize := some 0
            ConsumerChainQueueSizes := some [(consumerName, 0)] }),
        (consumerName,
          { ValPowers := some [("alice", 511), ("bob", 500), ("carol", 500)] }) ] },
    { action := .downtimeSlashAction consumerName "carol"
      state := [
        ("provi",
          { ValPowers := some [("alice", 511), ("bob", 0), ("carol", 500)] }),
        (consumerName,
          { ValPowers := some [("alice", 511), ("bob", 500), ("carol", 500)] }) ] },
    { action := .relayPacketsAction "provi" consumerName "provider" 0
      state := [
        ("provi",
          { ValPowers := some [("alice", 511), ("bob", 0), ("carol", 500)]
            GlobalSlashQueueSize := some 1
            ConsumerChainQueueSizes := some [(consumerName, 1)] }),
        (consumerName,
          { ValPowers := some [("alice", 511), ("bob", 0), ("carol", 500)] }) ] },
    { action := .slashThrottleDequeue consumerName 1 0 (80 * Second)
      state := [
        ("provi",
          { ValPowers := some [("alice", 511), ("bob", 0), ("carol", 0)]
            GlobalSlashQueueSize := some 0
            ConsumerChainQueueSizes := some [(consumerName, 0)] }),
        (consumerName,
          { ValPowers := some [("alice", 511), ("bob", 0), ("carol", 500)] }) ] },
    { action := .relayPacketsAction "provi" consumerName "provider" 0
      state := [
        ("provi",
          { ValPowers := some [("alice", 511), ("bob", 0), ("carol", 0)]
            GlobalSlashQueueSize := some 0
            ConsumerChainQueueSizes := some [(consumerName, 0)] }),
        (consumerName,
          { ValPowers := some [("alice", 511), ("bob", 0), ("carol", 0)] }) ] } ]

/-- Expected power of a validator in a chain state, when the state lists it. -/
def ChainState.power (cs : ChainState) (val : validatorID) : Option Nat :=
  match cs.ValPowers with
  | none => none
  | some m => GoMap.lookup m val

/-- Expected power of a validator on a chain after a step, when the state of the
step has an entry for the chain and that entry lists the validator. -/
def Step.power (st : Step) (chain : chainID) (val : validatorID) : Option Nat :=
  match GoMap.lookup st.state chain with
  | none => none
  | some cs => cs.power val

/-- Expected powers of alice, bob and carol, in this order, on a chain after a step. -/
def Step.powers (st : Step) (chain : chainID) : List (Option Nat) :=
  [st.power chain "alice", st.power chain "bob", st.power chain "carol"]

/-- Expected size of the global slash queue on a chain after a step. -/
def Step.globalQueueSize (st : Step) (chain : chainID) : Option Nat :=
  match GoMap.lookup st.state chain with
  | none => none
  | some cs => cs.GlobalSlashQueueSize

/-- Expected size, on a chain after a step, of the slash queue of one consumer. -/
def Step.consumerQueueSize (st : Step) (chain consumer : chainID) : Option Nat :=
  match GoMap.lookup st.state chain with
  | none => none
  | some cs =>
    match cs.ConsumerChainQueueSizes with
    | none => none
    | some m => GoMap.lookup m consumer

/-- Sum of the sizes of the per-consumer slash queues expected on a chain after
a step, when the state sets `ConsumerChainQueueSizes`. -/
def Step.consumerQueueTotal (st : Step) (chain : chainID) : Option Nat :=
  match GoMap.lookup st.state chain with
  | none => none
  | some cs =>
    match cs.ConsumerChainQueueSizes with
    | none => none
    | some m => some (GoMap.values m).sum

/-! ## `tests/integration/distribution.go` -/

/-- Constant `precisionReuse` of `decimal.go`: `10^18`, one unit of a `Dec`. -/
def precisionReuse : Int := 1000000000000000000

/-- Constant `fivePrecision` of `decimal.go`: half a unit. -/
def fivePrecision : Int := 500000000000000000

/-- Largest bit length of an `sdk.Int`. -/
def maxBitLen : Nat := 256

/-- Function `chopPrecisionAndRound` of `decimal.go` on an argument that is not
negative: divide by `10^18`, rounding half to even. -/
def chopPrecisionAndRound.nonneg (d : Int) : Int :=
  let quo := d.tdiv precisionReuse
  let rem := d.tmod precisionReuse
  if rem = 0 then quo
  else if rem < fivePrecision then quo
  else if rem > fivePrecision then quo + 1
  else if quo % 2 = 0 then quo
  else quo + 1

/-- Function `chopPrecisionAndRound` of `decimal.go`: a negative argument is
negated, rounded and negated back. -/
def chopPrecisionAndRound (d : Int) : Int :=
  if d < 0 then -(chopPrecisionAndRound.nonneg (-d)) else chopPrecisionAndRound.nonneg d

/-- Method `Dec.Mul`: rounded product, panicking when the result is too wide. -/
def Dec.Mul (d d2 : Dec) : Go Dec :=
  let chopped := chopPrecisionAndRound (d.i * d2.i)
  if BitLen chopped > maxDecBitLen then .panic "Int overflow" else .ret ⟨chopped⟩

/-- Function `sdk.NewDecFromInt`: the decimal of an integer. -/
def NewDecFromInt (n : Int) : Dec := ⟨n * precisionReuse⟩

/-- Method `Dec.TruncateInt`: the integer part, cut towards zero; the `sdk.Int`
constructor panics on more than 256 bits. -/
def Dec.TruncateInt (d : Dec) : Go Int :=
  let truncated := d.i.tdiv precisionReuse
  if BitLen truncated > maxBitLen then .panic "NewIntFromBigInt() out of bound"
  else .ret truncated

/-- The expected rewards computed by `TestRewardsDistribution`, for one denom of
which the fee pool holds `feePoolTokens`:
`consumerExpectedRewards, _ := sdk.NewDecCoinsFromCoins(feePoolTokens...).MulDec(frac).TruncateDecimal()`
and `providerExpectedRewards := feePoolTokens.Sub(consumerExpectedRewards...)`.
The result is the pair of `AmountOf` the denom in the two coin sets (a coin set
drops zero amounts, and `AmountOf` is then zero). Coin constructors panic on a
negative amount, and so does `Coins.Sub`. -/
def TestRewardsDistribution.expectedRewards (feePoolTokens : Int) (frac : Dec) :
    Go (Int × Int) :=
  if feePoolTokens < 0 then .panic "negative coin amount"
  else
    match (NewDecFromInt feePoolTokens).Mul frac with
    | .panic msg => .panic msg
    | .ret product =>
      if product.i < 0 then .panic "negative decimal coin amount"
      else
        match product.TruncateInt with
        | .panic msg => .panic msg
        | .ret consumerExpectedRewards =>
          let providerExpectedRewards := feePoolTokens - consumerExpectedRewards
          if providerExpectedRewards < 0 then .panic "negative coin amount"
          else .ret (consumerExpectedRewards, providerExpectedRewards)

/-- Go `int64` arithmetic: the result of an operation wraps around modulo `2^64`. -/
def wrapInt64 (x : Int) : Int := (x + 2 ^ 63) % 2 ^ 64 - 2 ^ 63

/-- Go conversion `uint64(x)` of an `int64`. -/
def toUint64 (x : Int) : Nat := (x % 2 ^ 64).toNat

/-- Whether an integer is a value of Go type `int64`. -/
def isInt64 (x : Int) : Prop := -2 ^ 63 ≤ x ∧ x < 2 ^ 63

instance (x : Int) : Decidable (isInt64 x) := by
  unfold isInt64
  infer_instance

/-- The local `blocksToGo` of `prepareRewardDist`, from the blocks per
distribution transmission, the current height and the height of the last
transmission. -/
def prepareRewardDist.blocksToGo (bpdt currentHeight lastTransHeight : Int) : Int :=
  let blocksSinceLastTrans := wrapInt64 (currentHeight - lastTransHeight)
  wrapInt64 (bpdt - blocksSinceLastTrans)

/-- Function `prepareRewardDist`: the number of blocks it hands to
`CommitNBlocks`, `uint64(blocksToGo)`. -/
def prepareRewardDist (bpdt currentHeight lastTransHeight : Int) : Nat :=
  toUint64 (prepareRewardDist.blocksToGo bpdt currentHeight lastTransHeight)

/-! ## The slash meter -/

/-- Modelled from the spec: the replenish fraction of the throttled scenario,
"replenish fraction 0.10/20s". -/
def SlashMeterReplenishFraction : ℚ := 10 / 100

/-- Modelled from the spec: the replenish period of the throttled scenario,
20 seconds. -/
def SlashMeterReplenishPeriod : Int := 20 * Second

/-- Modelled from the spec: the amount added by one replenishment,
`replenish_fraction × total_bonded_power`, cut to an integer since the meter is
"a single signed integer". The keeper code of the meter is not among the sources. -/
def SlashMeter.allowance (fraction : ℚ) (totalPower : Int) : Int :=
  ⌊fraction * (totalPower : ℚ)⌋

/-- Modelled from the spec: the meter is "decremented by the power of every
validator jailed through the throttle" and "may go negative". -/
def SlashMeter.jail (meter power : Int) : Int := meter - power

/-- Modelled from the spec: "once per configured period, add
replenish_fraction × total_bonded_power to the meter, clamped above at the
total bonded power". -/
def SlashMeter.replenish (fraction : ℚ) (totalPower meter : Int) : Int :=
  min (meter + SlashMeter.allowance fraction totalPower) totalPower

/-- Sum of the powers listed in the expected state of a chain after a step;
zero when the state has no entry for the chain. -/
def Step.totalPower (st : Step) (chain : chainID) : Nat :=
  match GoMap.lookup st.state chain with
  | none => 0
  | some cs =>
    match cs.ValPowers with
    | none => 0
    | some m => (GoMap.values m).sum

/-! ## `params.go`: the parameter store keys and `ParamSetPairs` -/

/-- Go conversion `[]byte(s)` of a string: its bytes in UTF-8. -/
def bytes (s : String) : List UInt8 := s.data.flatMap String.utf8EncodeChar

def KeyEnabled : List UInt8 := bytes "Enabled"

def KeyBlocksPerDistributionTransmission : List UInt8 :=
  bytes "BlocksPerDistributionTransmission"

def KeyDistributionTransmissionChannel : List UInt8 :=
  bytes "DistributionTransmissionChannel"

def KeyProviderFeePoolAddrStr : List UInt8 := bytes "ProviderFeePoolAddrStr"

def KeyTransferTimeoutPeriod : List UInt8 := bytes "TransferTimeoutPeriod"

def KeyConsumerRedistributionFrac : List UInt8 := bytes "ConsumerRedistributionFraction"

def KeyHistoricalEntries : List UInt8 := bytes "HistoricalEntries"

def KeyConsumerUnbondingPeriod : List UInt8 := bytes "UnbondingPeriod"

def KeySoftOptOutThreshold : List UInt8 := bytes "SoftOptOutThreshold"

def KeyRewardDenoms : List UInt8 := bytes "RewardDenoms"

def KeyProviderRewardDenoms : List UInt8 := bytes "ProviderRewardDenoms"

/-- The eleven parameter store keys that `params.go` declares, in the order of
declaration. -/
def declaredKeys : List (List UInt8) :=
  [KeyEnabled, KeyBlocksPerDistributionTransmission, KeyDistributionTransmissionChannel,
   KeyProviderFeePoolAddrStr, KeyTransferTimeoutPeriod, KeyConsumerRedistributionFrac,
   KeyHistoricalEntries, KeyConsumerUnbondingPeriod, KeySoftOptOutThreshold, KeyRewardDenoms,
   KeyProviderRewardDenoms]

/-- Type `paramtypes.ParamSetPair` of the Cosmos SDK: a key, a value and the
function that validates values stored under the key. -/
structure ParamSetPair where
  Key : List UInt8
  Value : CCV.Value
  ValidatorFn : CCV.Value → Go Error

/-- Function `paramtypes.NewParamSetPair` of the Cosmos SDK. -/
def NewParamSetPair (key : List UInt8) (value : Value) (vfn : Value → Go Error) :
    ParamSetPair :=
  { Key := key, Value := value, ValidatorFn := vfn }

/-- A validator of Go type `func(interface{}) error` that is taken not to panic,
as the Go call it is. -/
def validator (f : Value → Error) : Value → Go Error := fun i => .ret (f i)

/-- Method `Params.ParamSetPairs` implements `params.ParamSet`. The key
`KeyCCVTimeoutPeriod` is declared in `shared_params.go` and is taken as an
argument. -/
def Params.ParamSetPairs (D : Deps) (KeyCCVTimeoutPeriod : List UInt8) (p : Params) :
    List ParamSetPair :=
  [ NewParamSetPair KeyEnabled (.bool p.Enabled) (validator D.ValidateBool),
    NewParamSetPair KeyBlocksPerDistributionTransmission
      (.int64 p.BlocksPerDistributionTransmission) (validator D.ValidatePositiveInt64),
    NewParamSetPair KeyDistributionTransmissionChannel
      (.string p.DistributionTransmissionChannel)
      (validator D.ValidateDistributionTransmissionChannel),
    NewParamSetPair KeyProviderFeePoolAddrStr
      (.string p.ProviderFeePoolAddrStr) (validator (ValidateProviderFeePoolAddrStr D)),
    NewParamSetPair KeyCCVTimeoutPeriod
      (.duration p.CcvTimeoutPeriod) (validator D.ValidateDuration),
    NewParamSetPair KeyTransferTimeoutPeriod
      (.duration p.TransferTimeoutPeriod) (validator D.ValidateDuration),
    NewParamSetPair KeyConsumerRedistributionFrac
      (.string p.ConsumerRedistributionFraction) (validator D.ValidateStringFraction),
    NewParamSetPair KeyHistoricalEntries
      (.int64 p.HistoricalEntries) (validator D.ValidatePositiveInt64),
    NewParamSetPair KeyConsumerUnbondingPeriod
      (.duration p.UnbondingPeriod) (validator D.ValidateDuration),
    NewParamSetPair KeySoftOptOutThreshold
      (.string p.SoftOptOutThreshold) ValidateSoftOptOutThreshold,
    NewParamSetPair KeyRewardDenoms
      (.strings p.RewardDenoms) (validator (ValidateDenoms D)),
    NewParamSetPair KeyProviderRewardDenoms
      (.strings p.ProviderRewardDenoms) (validator (ValidateDenoms D)) ]

/-- The reading of "every pair's validator accepts its pair's value": the
validator of each pair is run on the value of the pair, in the order of the
pairs, and the first error is the result. -/
def ParamSetPairs.validateAll : List ParamSetPair → Go Error
  | [] => .ret none
  | pair :: rest => check (pair.ValidatorFn pair.Value) (ParamSetPairs.validateAll rest)

/-! ## Auxiliary facts -/

theorem bitLenAux_le_iff (fuel : Nat) : ∀ n k : Nat, n ≤ fuel →
    (bitLenAux fuel n ≤ k ↔ n < 2 ^ k) := by
  induction fuel with
  | zero =>
    intro n k h
    have hn : n = 0 := by omega
    subst hn
    simp [bitLenAux]
  | succ f ih =>
    intro n k h
    by_cases hn : n = 0
    · subst hn
      simp [bitLenAux]
    · have hdiv : n / 2 ≤ f := by omega
      cases k with
      | zero =>
        simp [bitLenAux, hn]
      | succ k =>
        have := ih (n / 2) k hdiv
        simp only [bitLenAux, hn, if_false, Nat.add_le_add_iff_right, this]
        rw [pow_succ]
        omega

theorem BitLen_le_iff (z : Int) (k : Nat) : BitLen z ≤ k ↔ z.natAbs < 2 ^ k :=
  bitLenAux_le_iff _ _ _ (le_refl _)

theorem BitLen_neg (z : Int) : BitLen (-z) = BitLen z := by
  simp [BitLen]

theorem NewDecFromStr.combine_bitLen (neg : Bool) (n : Nat) (cs : List Char) (d : Dec)
    (h : NewDecFromStr.combine neg n cs = .ok d) : BitLen d.i ≤ maxDecBitLen := by
  unfold NewDecFromStr.combine at h
  split at h
  · cases h
  · dsimp only at h
    split at h
    · cases h
    · split at h
      · cases h
      · injection h with h
        subst h
        cases neg
        · simpa using (by omega)
        · simp only [if_true, BitLen_neg]
          omega

theorem NewDecFromStr.body_bitLen (neg : Bool) (cs : List Char) (d : Dec)
    (h : NewDecFromStr.body neg cs = .ok d) : BitLen d.i ≤ maxDecBitLen := by
  unfold NewDecFromStr.body at h
  split at h
  · cases h
  · split at h
    · cases h
    · exact NewDecFromStr.combine_bitLen _ _ _ _ h
    · split at h
      · cases h
      · exact NewDecFromStr.combine_bitLen _ _ _ _ h
    · cases h

theorem NewDecFromStr_bitLen (s : String) (d : Dec)
    (h : NewDecFromStr s = .ok d) : BitLen d.i ≤ maxDecBitLen := by
  unfold NewDecFromStr at h
  split_ifs at h
  split at h
  · exact NewDecFromStr.body_bitLen _ _ _ h
  · exact NewDecFromStr.body_bitLen _ _ _ h

theorem MustNewDecFromStr_bound :
    MustNewDecFromStr "0.2" = .ret ⟨200000000000000000⟩ := by rfl

theorem Dec.Sub_bound (d : Dec) (h0 : 0 ≤ d.i) (hb : BitLen d.i ≤ maxDecBitLen) :
    d.Sub ⟨200000000000000000⟩ = .ret ⟨d.i - 200000000000000000⟩ := by
  have hd : d.i.natAbs < 2 ^ maxDecBitLen := (BitLen_le_iff _ _).1 hb
  have h2 : (200000000000000000 : Nat) < 2 ^ maxDecBitLen := by
    norm_num [maxDecBitLen]
  have hres : BitLen (d.i - 200000000000000000) ≤ maxDecBitLen := by
    rw [BitLen_le_iff]
    omega
  unfold Dec.Sub
  simp only [gt_iff_lt, not_lt.mpr hres, if_false]

theorem ValidateSoftOptOutThreshold_parsed (s : String) (d : Dec)
    (h : NewDecFromStr s = .ok d) :
    ValidateSoftOptOutThreshold (.string s) =
      if d.i < 0 then
        .ret (some ("soft opt out threshold cannot be negative, got " ++ s))
      else if 200000000000000000 ≤ d.i then
        .ret (some ("soft opt out threshold cannot be greater than 0.2, got " ++ s))
      else .ret none := by
  have hb := NewDecFromStr_bitLen s d h
  unfold ValidateSoftOptOutThreshold
  simp only [h, Dec.IsNegative]
  by_cases hneg : d.i < 0
  · simp [hneg]
  · have h0 : 0 ≤ d.i := not_lt.mp hneg
    simp only [hneg, decide_False, MustNewDecFromStr_bound, Dec.Sub_bound d h0 hb]
    by_cases hge : 200000000000000000 ≤ d.i
    · simp [hge]
    · simp [hge]

theorem Dec.toRat_neg_iff (d : Dec) : d.toRat < 0 ↔ d.i < 0 := by
  unfold Dec.toRat
  have hpos : (0 : ℚ) < (10 : ℚ) ^ Precision := by positivity
  rw [div_neg_iff]
  constructor
  · rintro (⟨_, h⟩ | ⟨h, _⟩)
    · exact absurd h (not_lt.mpr hpos.le)
    · exact_mod_cast h
  · intro h
    exact Or.inr ⟨by exact_mod_cast h, hpos⟩

theorem Dec.toRat_lt_bound_iff (d : Dec) :
    d.toRat < 2 / 10 ↔ d.i < 200000000000000000 := by
  unfold Dec.toRat
  have hpos : (0 : ℚ) < (10 : ℚ) ^ Precision := by positivity
  rw [div_lt_iff₀ hpos]
  have : (2 / 10 : ℚ) * (10 : ℚ) ^ Precision = ((200000000000000000 : Int) : ℚ) := by
    norm_num [Precision]
  rw [this]
  exact Int.cast_lt

/-- The validator accepts a parsed decimal exactly on the half-open range
`0 ≤ d < 0.2`. -/
theorem ValidateSoftOptOutThreshold_accepts_iff (s : String) (d : Dec)
    (h : NewDecFromStr s = .ok d) :
    ValidateSoftOptOutThreshold (.string s) = .ret none ↔ 0 ≤ d.toRat ∧ d.toRat < 2 / 10 := by
  have h0 : 0 ≤ d.toRat ↔ 0 ≤ d.i := by
    rw [← not_lt, Dec.toRat_neg_iff, not_lt]
  rw [ValidateSoftOptOutThreshold_parsed s d h, Dec.toRat_lt_bound_iff, h0]
  by_cases hneg : d.i < 0
  · simp only [hneg, if_true]
    constructor
    · intro hc
      cases hc
    · intro hc
      omega
  · by_cases hge : (200000000000000000 : Int) ≤ d.i
    · simp only [hneg, hge, if_true, if_false]
      constructor
      · intro hc
        cases hc
      · intro hc
        omega
    · simp only [hneg, hge, if_false, true_iff]
      omega

theorem check_eq_nil_iff (r rest : Go Error) :
    check r rest = .ret none ↔ r = .ret none ∧ rest = .ret none := by
  rcases r with (_ | e) | m <;> simp [check]

theorem check_returns (r rest : Go Error) (hr : ∃ a, r = .ret a) (hrest : ∃ b, rest = .ret b) :
    ∃ c, check r rest = .ret c := by
  obtain ⟨a, rfl⟩ := hr
  cases a with
  | none => simpa [check] using hrest
  | some e => exact ⟨some e, rfl⟩

theorem ValidateSoftOptOutThreshold_returns (i : Value) :
    ∃ r, ValidateSoftOptOutThreshold i = .ret r := by
  cases i with
  | string s =>
    cases h : NewDecFromStr s with
    | error e => exact ⟨some e, by simp [ValidateSoftOptOutThreshold, h]⟩
    | ok d =>
      rw [ValidateSoftOptOutThreshold_parsed s d h]
      split_ifs <;> exact ⟨_, rfl⟩
  | _ => exact ⟨_, rfl⟩

theorem Params.Validate_returns (D : Deps) (p : Params) :
    ∃ r, p.Validate D = .ret r := by
  unfold Params.Validate
  repeat' first
    | exact ⟨_, rfl⟩
    | exact ValidateSoftOptOutThreshold_returns _
    | apply check_returns

theorem Params.Validate_error_of_ne_nil (D : Deps) (p : Params) (h : p.Validate D ≠ .ret none) :
    ∃ err, p.Validate D = .ret (some err) := by
  obtain ⟨r, hr⟩ := Params.Validate_returns D p
  cases r with
  | none => exact absurd hr h
  | some e => exact ⟨e, hr⟩

theorem Params.Validate_accepts_iff (D : Deps) (p : Params) :
    p.Validate D = .ret none ↔
      D.ValidateBool (.bool p.Enabled) = none ∧
      D.ValidatePositiveInt64 (.int64 p.BlocksPerDistributionTransmission) = none ∧
      D.ValidateDistributionTransmissionChannel (.string p.DistributionTransmissionChannel) = none ∧
      ValidateProviderFeePoolAddrStr D (.string p.ProviderFeePoolAddrStr) = none ∧
      D.ValidateDuration (.duration p.CcvTimeoutPeriod) = none ∧
      D.ValidateDuration (.duration p.TransferTimeoutPeriod) = none ∧
      D.ValidateStringFraction (.string p.ConsumerRedistributionFraction) = none ∧
      D.ValidatePositiveInt64 (.int64 p.HistoricalEntries) = none ∧
      D.ValidateDuration (.duration p.UnbondingPeriod) = none ∧
      ValidateSoftOptOutThreshold (.string p.SoftOptOutThreshold) = .ret none ∧
      ValidateDenoms D (.strings p.RewardDenoms) = none ∧
      ValidateDenoms D (.strings p.ProviderRewardDenoms) = none := by
  simp only [Params.Validate, check_eq_nil_iff, Go.ret.injEq, and_true]

theorem ValidateDenoms.loop_nil_iff (D : Deps) (v : List String) :
    ValidateDenoms.loop D v = none ↔
      ∀ denom ∈ v, D.CoinValidate { Denom := denom, Amount := 0 } = none := by
  induction v with
  | nil => simp [ValidateDenoms.loop]
  | cons x xs ih =>
    cases hx : D.CoinValidate { Denom := x, Amount := 0 } with
    | none => simp [ValidateDenoms.loop, hx, ih]
    | some e => simp [ValidateDenoms.loop, hx]

theorem ValidateDenoms.loop_first_invalid (D : Deps) (pre : List String) (denom : String)
    (post : List String) (err : String)
    (hpre : ∀ x ∈ pre, D.CoinValidate { Denom := x, Amount := 0 } = none)
    (hbad : D.CoinValidate { Denom := denom, Amount := 0 } = some err) :
    ValidateDenoms.loop D (pre ++ denom :: post) = some err := by
  induction pre with
  | nil => simp [ValidateDenoms.loop, hbad]
  | cons x xs ih =>
    have hx := hpre x (List.mem_cons_self _ _)
    have hxs : ∀ y ∈ xs, D.CoinValidate { Denom := y, Amount := 0 } = none :=
      fun y hy => hpre y (List.mem_cons_of_mem _ hy)
    simp [ValidateDenoms.loop, hx, ih hxs]

/-! ## Properties of the parameter validation -/

/-- C1: `Params.Validate` returns nil exactly when each of its twelve field
checks returns nil; and as soon as one of the twelve checks returns an error,
`Validate` returns a non-nil error, whatever the other fields hold. -/
theorem Params.Validate_nil_iff (D : Deps) (p : Params) :
    (p.Validate D = .ret none ↔
      D.ValidateBool (.bool p.Enabled) = none ∧
      D.ValidatePositiveInt64 (.int64 p.BlocksPerDistributionTransmission) = none ∧
      D.ValidateDistributionTransmissionChannel (.string p.DistributionTransmissionChannel) = none ∧
      ValidateProviderFeePoolAddrStr D (.string p.ProviderFeePoolAddrStr) = none ∧
      D.ValidateDuration (.duration p.CcvTimeoutPeriod) = none ∧
      D.ValidateDuration (.duration p.TransferTimeoutPeriod) = none ∧
      D.ValidateStringFraction (.string p.ConsumerRedistributionFraction) = none ∧
      D.ValidatePositiveInt64 (.int64 p.HistoricalEntries) = none ∧
      D.ValidateDuration (.duration p.UnbondingPeriod) = none ∧
      ValidateSoftOptOutThreshold (.string p.SoftOptOutThreshold) = .ret none ∧
      ValidateDenoms D (.strings p.RewardDenoms) = none ∧
      ValidateDenoms D (.strings p.ProviderRewardDenoms) = none) ∧
    ((D.ValidateBool (.bool p.Enabled) ≠ none ∨
      D.ValidatePositiveInt64 (.int64 p.BlocksPerDistributionTransmission) ≠ none ∨
      D.ValidateDistributionTransmissionChannel (.string p.DistributionTransmissionChannel) ≠ none ∨
      ValidateProviderFeePoolAddrStr D (.string p.ProviderFeePoolAddrStr) ≠ none ∨
      D.ValidateDuration (.duration p.CcvTimeoutPeriod) ≠ none ∨
      D.ValidateDuration (.duration p.TransferTimeoutPeriod) ≠ none ∨
      D.ValidateStringFraction (.string p.ConsumerRedistributionFraction) ≠ none ∨
      D.ValidatePositiveInt64 (.int64 p.HistoricalEntries) ≠ none ∨
      D.ValidateDuration (.duration p.UnbondingPeriod) ≠ none ∨
      ValidateSoftOptOutThreshold (.string p.SoftOptOutThreshold) ≠ .ret none ∨
      ValidateDenoms D (.strings p.RewardDenoms) ≠ none ∨
      ValidateDenoms D (.strings p.ProviderRewardDenoms) ≠ none) →
      ∃ err, p.Validate D = .ret (some err)) := by
  refine ⟨Params.Validate_accepts_iff D p, fun h => ?_⟩
  apply Params.Validate_error_of_ne_nil
  intro hnil
  rw [Params.Validate_accepts_iff] at hnil
  tauto

/-- C1, on an instance: default parameters with a negative unbonding period are
rejected, the other eleven fields being valid. -/
theorem Params.Validate_nil_iff_witness :
    ∃ err, Params.Validate specDeps { DefaultParams 0 with UnbondingPeriod := -1 }
      = .ret (some err) :=
  (Params.Validate_nil_iff specDeps { DefaultParams 0 with UnbondingPeriod := -1 }).2
    (by decide)

/-- C2: at the upper endpoint the validator does not accept: the string "0.2"
parses to the decimal 2/10 and `ValidateSoftOptOutThreshold` returns the error
"soft opt out threshold cannot be greater than 0.2, got 0.2". -/
theorem ValidateSoftOptOutThreshold_upper_endpoint :
    NewDecFromStr "0.2" = .ok ⟨200000000000000000⟩ ∧
    (Dec.mk 200000000000000000).toRat = 2 / 10 ∧
    ValidateSoftOptOutThreshold (.string "0.2") =
      .ret (some "soft opt out threshold cannot be greater than 0.2, got 0.2") := by
  refine ⟨rfl, ?_, rfl⟩
  norm_num [Dec.toRat, Precision]

/-- C3: every string that parses to a decimal strictly greater than 0.2 is
rejected with the "cannot be greater than 0.2" error. -/
theorem ValidateSoftOptOutThreshold_rejects_above (s : String) (d : Dec)
    (hparse : NewDecFromStr s = .ok d) (hgt : 2 / 10 < d.toRat) :
    ValidateSoftOptOutThreshold (.string s) =
      .ret (some ("soft opt out threshold cannot be greater than 0.2, got " ++ s)) := by
  have hlt : ¬ d.toRat < 2 / 10 := not_lt.mpr hgt.le
  rw [Dec.toRat_lt_bound_iff] at hlt
  have hge : (200000000000000000 : Int) ≤ d.i := not_lt.mp hlt
  have hneg : ¬ d.i < 0 := by omega
  rw [ValidateSoftOptOutThreshold_parsed s d hparse, if_neg hneg, if_pos hge]

/-- C3, on an instance: "0.3" parses to 3/10, which exceeds 0.2, and is rejected. -/
theorem ValidateSoftOptOutThreshold_rejects_above_witness :
    NewDecFromStr "0.3" = .ok ⟨300000000000000000⟩ ∧
    (2 / 10 : ℚ) < (Dec.mk 300000000000000000).toRat ∧
    ValidateSoftOptOutThreshold (.string "0.3") =
      .ret (some "soft opt out threshold cannot be greater than 0.2, got 0.3") :=
  ⟨rfl, by norm_num [Dec.toRat, Precision],
    ValidateSoftOptOutThreshold_rejects_above "0.3" ⟨300000000000000000⟩ rfl
      (by norm_num [Dec.toRat, Precision])⟩

/-- C4: `ValidateSoftOptOutThreshold` returns a non-nil error for every input
that is not a string, for every string that `NewDecFromStr` fails to parse (the
parse error itself), and for every string that parses to a negative decimal. -/
theorem ValidateSoftOptOutThreshold_rejects_invalid :
    (∀ i : Value, (∀ s, i ≠ .string s) →
      ValidateSoftOptOutThreshold i = .ret (some (invalidParameterType i))) ∧
    (∀ (s : String) (e : String), NewDecFromStr s = .error e →
      ValidateSoftOptOutThreshold (.string s) = .ret (some e)) ∧
    (∀ (s : String) (d : Dec), NewDecFromStr s = .ok d → d.toRat < 0 →
      ValidateSoftOptOutThreshold (.string s) =
        .ret (some ("soft opt out threshold cannot be negative, got " ++ s))) := by
  refine ⟨?_, ?_, ?_⟩
  · intro i hi
    cases i with
    | string s => exact absurd rfl (hi s)
    | _ => rfl
  · intro s e h
    simp [ValidateSoftOptOutThreshold, h]
  · intro s d h hneg
    rw [Dec.toRat_neg_iff] at hneg
    rw [ValidateSoftOptOutThreshold_parsed s d h, if_pos hneg]

/-- C4, on instances: an `int64`, the unparseable string "abc" and the negative
decimal "-0.05" are each rejected. -/
theorem ValidateSoftOptOutThreshold_rejects_invalid_witness :
    ValidateSoftOptOutThreshold (.int64 5) = .ret (some "invalid parameter type: int64") ∧
    ValidateSoftOptOutThreshold (.string "abc") =
      .ret (some "failed to set decimal string: abc000000000000000000") ∧
    ValidateSoftOptOutThreshold (.string "-0.05") =
      .ret (some "soft opt out threshold cannot be negative, got -0.05") :=
  ⟨ValidateSoftOptOutThreshold_rejects_invalid.1 (.int64 5) (fun _ h => by cases h),
   ValidateSoftOptOutThreshold_rejects_invalid.2.1 "abc" _ rfl,
   ValidateSoftOptOutThreshold_rejects_invalid.2.2 "-0.05" ⟨-50000000000000000⟩ rfl
     (by norm_num [Dec.toRat, Precision])⟩

/-- C5: `ValidateDenoms` returns nil on a `[]string` exactly when the zero-amount
coin of every denom in it passes `Coin.Validate`; the empty list is accepted; an
input that is not a `[]string` is rejected; and on failure the error is that of
the first invalid denom in list order. -/
theorem ValidateDenoms_spec (D : Deps) :
    (∀ v : List String, ValidateDenoms D (.strings v) = none ↔
      ∀ denom ∈ v, D.CoinValidate { Denom := denom, Amount := 0 } = none) ∧
    ValidateDenoms D (.strings []) = none ∧
    (∀ i : Value, (∀ v, i ≠ .strings v) →
      ValidateDenoms D i = some (invalidParameterType i)) ∧
    (∀ (pre : List String) (denom : String) (post : List String) (err : String),
      (∀ x ∈ pre, D.CoinValidate { Denom := x, Amount := 0 } = none) →
      D.CoinValidate { Denom := denom, Amount := 0 } = some err →
      ValidateDenoms D (.strings (pre ++ denom :: post)) = some err) := by
  refine ⟨fun v => ValidateDenoms.loop_nil_iff D v, rfl, ?_, ?_⟩
  · intro i hi
    cases i with
    | strings v => exact absurd rfl (hi v)
    | _ => rfl
  · intro pre denom post err hpre hbad
    exact ValidateDenoms.loop_first_invalid D pre denom post err hpre hbad

/-- C5, on instances: a list of valid denoms is accepted, a string is not a
list, and of two invalid denoms the error names the first. -/
theorem ValidateDenoms_spec_witness :
    ValidateDenoms specDeps (.strings ["stake", "ibc/27A6"]) = none ∧
    ValidateDenoms specDeps (.string "stake") = some "invalid parameter type: string" ∧
    ValidateDenoms specDeps (.strings (["stake"] ++ "1ab" :: ["x"])) =
      some "invalid denom: 1ab" :=
  ⟨((ValidateDenoms_spec specDeps).1 ["stake", "ibc/27A6"]).2 (by decide),
   (ValidateDenoms_spec specDeps).2.2.1 (.string "stake") (fun _ h => by cases h),
   (ValidateDenoms_spec specDeps).2.2.2 ["stake"] "1ab" ["x"] "invalid denom: 1ab"
     (by decide) (by decide)⟩

/-- C6: `ValidateProviderFeePoolAddrStr` accepts the empty string whatever
`ValidateBech32` would say of it; the empty string is the address of
`DefaultParams`; and on every other input the result is exactly that of
`ValidateBech32`. -/
theorem ValidateProviderFeePoolAddrStr_spec (D : Deps) :
    ValidateProviderFeePoolAddrStr D (.string "") = none ∧
    (∀ t : Int, (DefaultParams t).ProviderFeePoolAddrStr = "") ∧
    (∀ i : Value, i ≠ .string "" →
      ValidateProviderFeePoolAddrStr D i = D.ValidateBech32 i) := by
  refine ⟨by simp [ValidateProviderFeePoolAddrStr], fun _ => rfl, fun i hi => ?_⟩
  simp [ValidateProviderFeePoolAddrStr, hi]

/-- C6, on an instance whose bech32 check rejects everything: the empty string
is accepted all the same, and "cosmos1" gets the bech32 verdict. -/
theorem ValidateProviderFeePoolAddrStr_spec_witness :
    ValidateProviderFeePoolAddrStr
      { specDeps with ValidateBech32 := fun _ => some "decoding bech32 failed" }
      (.string "") = none ∧
    ValidateProviderFeePoolAddrStr
      { specDeps with ValidateBech32 := fun _ => some "decoding bech32 failed" }
      (.string "cosmos1") = some "decoding bech32 failed" :=
  ⟨(ValidateProviderFeePoolAddrStr_spec _).1,
   (ValidateProviderFeePoolAddrStr_spec
      { specDeps with ValidateBech32 := fun _ => some "decoding bech32 failed" }).2.2
     (.string "cosmos1") (by decide)⟩

/-- C7: `Params.Validate` passes each of `CcvTimeoutPeriod`,
`TransferTimeoutPeriod` and `UnbondingPeriod` to `ValidateDuration` and returns a
non-nil error whenever that check rejects one of them; so, when
`ValidateDuration` rejects negative durations, parameters with a negative
duration in any of the three fields are rejected, whatever the other fields. -/
theorem Params.Validate_rejects_bad_duration (D : Deps) (p : Params) :
    ((D.ValidateDuration (.duration p.CcvTimeoutPeriod) ≠ none ∨
      D.ValidateDuration (.duration p.TransferTimeoutPeriod) ≠ none ∨
      D.ValidateDuration (.duration p.UnbondingPeriod) ≠ none) →
      ∃ err, p.Validate D = .ret (some err)) ∧
    ((∀ d : Int, d < 0 → D.ValidateDuration (.duration d) ≠ none) →
      (p.CcvTimeoutPeriod < 0 ∨ p.TransferTimeoutPeriod < 0 ∨ p.UnbondingPeriod < 0) →
      ∃ err, p.Validate D = .ret (some err)) := by
  have key : (D.ValidateDuration (.duration p.CcvTimeoutPeriod) ≠ none ∨
      D.ValidateDuration (.duration p.TransferTimeoutPeriod) ≠ none ∨
      D.ValidateDuration (.duration p.UnbondingPeriod) ≠ none) →
      ∃ err, p.Validate D = .ret (some err) := by
    intro h
    apply Params.Validate_error_of_ne_nil
    intro hnil
    rw [Params.Validate_accepts_iff] at hnil
    tauto
  refine ⟨key, fun hdur hneg => key ?_⟩
  rcases hneg with h | h | h
  · exact Or.inl (hdur _ h)
  · exact Or.inr (Or.inl (hdur _ h))
  · exact Or.inr (Or.inr (hdur _ h))

/-- C7, on an instance: with a duration check that rejects negative durations,
default parameters whose transfer timeout is -5 ns are rejected. -/
theorem Params.Validate_rejects_bad_duration_witness :
    ∃ err, Params.Validate specDeps { DefaultParams 0 with TransferTimeoutPeriod := -5 }
      = .ret (some err) :=
  (Params.Validate_rejects_bad_duration specDeps
      { DefaultParams 0 with TransferTimeoutPeriod := -5 }).2
    (fun d hd => by simp [specDeps, hd]) (by decide)

/-- C8: `HistoricalEntries` is a signed integer that `Params.Validate` passes to
`ValidatePositiveInt64`, returning a non-nil error whenever that check rejects
it; so, when `ValidatePositiveInt64` rejects negative values, parameters with a
negative `HistoricalEntries` are rejected. -/
theorem Params.Validate_rejects_bad_historical_entries (D : Deps) (p : Params) :
    (D.ValidatePositiveInt64 (.int64 p.HistoricalEntries) ≠ none →
      ∃ err, p.Validate D = .ret (some err)) ∧
    ((∀ n : Int, n < 0 → D.ValidatePositiveInt64 (.int64 n) ≠ none) →
      p.HistoricalEntries < 0 →
      ∃ err, p.Validate D = .ret (some err)) := by
  have key : D.ValidatePositiveInt64 (.int64 p.HistoricalEntries) ≠ none →
      ∃ err, p.Validate D = .ret (some err) := by
    intro h
    apply Params.Validate_error_of_ne_nil
    intro hnil
    rw [Params.Validate_accepts_iff] at hnil
    tauto
  exact ⟨key, fun hint hneg => key (hint _ hneg)⟩

/-- C8, on an instance: default parameters with `HistoricalEntries = -1` are
rejected. -/
theorem Params.Validate_rejects_bad_historical_entries_witness :
    ∃ err, Params.Validate specDeps { DefaultParams 0 with HistoricalEntries := -1 }
      = .ret (some err) :=
  (Params.Validate_rejects_bad_historical_entries specDeps
      { DefaultParams 0 with HistoricalEntries := -1 }).2
    (fun n hn => by simp [specDeps]; omega) (by decide)

/-- C9: `ValidateSoftOptOutThreshold` never panics: on every input it returns,
with nil or an error. The literal "0.2" parses, so `MustNewDecFromStr` returns;
the subtraction of 0.2 from a parsed non-negative decimal does not overflow; a
non-string input and a parse failure come back as errors. -/
theorem ValidateSoftOptOutThreshold_never_panics :
    (∀ i : Value, ∃ r : Error, ValidateSoftOptOutThreshold i = .ret r) ∧
    MustNewDecFromStr "0.2" = .ret ⟨200000000000000000⟩ ∧
    (∀ (d : Dec) (s : String), NewDecFromStr s = .ok d → 0 ≤ d.i →
      d.Sub ⟨200000000000000000⟩ = .ret ⟨d.i - 200000000000000000⟩) ∧
    (∀ i : Value, (∀ s, i ≠ .string s) →
      ValidateSoftOptOutThreshold i = .ret (some (invalidParameterType i))) ∧
    (∀ (s : String) (e : String), NewDecFromStr s = .error e →
      ValidateSoftOptOutThreshold (.string s) = .ret (some e)) := by
  refine ⟨ValidateSoftOptOutThreshold_returns, rfl, fun d s h h0 => ?_, ?_, ?_⟩
  · exact Dec.Sub_bound d h0 (NewDecFromStr_bitLen s d h)
  · intro i hi
    cases i with
    | string s => exact absurd rfl (hi s)
    | _ => rfl
  · intro s e h
    simp [ValidateSoftOptOutThreshold, h]

/-- C9, on an instance: for the parsed "0.05" the subtraction of 0.2 returns. -/
theorem ValidateSoftOptOutThreshold_never_panics_witness :
    (Dec.mk 50000000000000000).Sub ⟨200000000000000000⟩ = .ret ⟨-150000000000000000⟩ :=
  ValidateSoftOptOutThreshold_never_panics.2.2.1 ⟨50000000000000000⟩ "0.05" rfl (by decide)

/-- C10: the default soft opt-out threshold is the string "0.05", it parses to
the decimal 5/100, and `ValidateSoftOptOutThreshold` accepts it. -/
theorem DefaultParams_SoftOptOutThreshold (DefaultCCVTimeoutPeriod : Int) :
    (DefaultParams DefaultCCVTimeoutPeriod).SoftOptOutThreshold = "0.05" ∧
    (∃ d : Dec, NewDecFromStr (DefaultParams DefaultCCVTimeoutPeriod).SoftOptOutThreshold
        = .ok d ∧ d.toRat = 5 / 100) ∧
    ValidateSoftOptOutThreshold
      (.string (DefaultParams DefaultCCVTimeoutPeriod).SoftOptOutThreshold) = .ret none := by
  refine ⟨rfl, ⟨⟨50000000000000000⟩, rfl, ?_⟩, rfl⟩
  norm_num [Dec.toRat, Precision]

/-! ## Auxiliary facts on the end-to-end steps and the reward distribution -/

theorem GoMap.lookup_pair_fst {V : Type} (c : chainID) (a b : V) (hc : c ≠ "provi") :
    GoMap.lookup [("provi", a), (c, b)] "provi" = some a := by
  have h : ¬ c = "provi" := hc
  simp [GoMap.lookup, h]

theorem GoMap.lookup_pair_snd {V : Type} (c : chainID) (a b : V) :
    GoMap.lookup [("provi", a), (c, b)] c = some b := by
  simp [GoMap.lookup]

theorem GoMap.lookup_pair_same {V : Type} (c : chainID) (a : V) :
    GoMap.lookup [("provi", a), (c, a)] "provi" = some a := by
  by_cases h : c = "provi" <;> simp [GoMap.lookup, h]

theorem GoMap.lookup_single {V : Type} (c : chainID) (b : V) :
    GoMap.lookup [(c, b)] c = some b := by
  simp [GoMap.lookup]

theorem GoMap.lookup_single_ne {V : Type} (c k : chainID) (b : V) (h : c ≠ k) :
    GoMap.lookup [(c, b)] k = none := by
  simp [GoMap.lookup, h]

/-- C12 (amended): for every consumer name other than "provi", the first five
steps of `stepsDowntime` expect: after the downtime slash of bob on the consumer
both chains unchanged (509, 500, 501); after the first relay bob at 0 on the
provider and still 500 on the consumer; after the second relay bob at 0 on the
consumer; after the unjailing bob at 500 on the provider again; after the next
relay bob at 500 on the consumer; alice (509) and carol (501) never change. -/
theorem stepsDowntime_consumer_initiated (consumerName : String)
    (hname : consumerName ≠ "provi") :
    ((stepsDowntime consumerName).take 5).map
        (fun st => (st.action, st.powers "provi", st.powers consumerName)) =
      [ (.downtimeSlashAction consumerName "bob",
          [some 509, some 500, some 501], [some 509, some 500, some 501]),
        (.relayPacketsAction "provi" consumerName "provider" 0,
          [some 509, some 0, some 501], [some 509, some 500, some 501]),
        (.relayPacketsAction "provi" consumerName "provider" 0,
          [none, none, none], [some 509, some 0, some 501]),
        (.unjailValidatorAction "provi" "bob",
          [some 509, some 500, some 501], [some 509, some 0, some 501]),
        (.relayPacketsAction "provi" consumerName "provider" 0,
          [none, none, none], [some 509, some 500, some 501]) ] := by
  simp only [stepsDowntime, List.take, List.map, Step.powers, Step.power,
    GoMap.lookup_pair_fst consumerName _ _ hname, GoMap.lookup_pair_snd, GoMap.lookup_single,
    GoMap.lookup_single_ne consumerName "provi" _ hname]
  rfl

/-- C12, on the consumer "consu". -/
theorem stepsDowntime_consumer_initiated_witness :
    ((stepsDowntime "consu").take 5).map
        (fun st => (st.action, st.powers "provi", st.powers "consu")) =
      [ (.downtimeSlashAction "consu" "bob",
          [some 509, some 500, some 501], [some 509, some 500, some 501]),
        (.relayPacketsAction "provi" "consu" "provider" 0,
          [some 509, some 0, some 501], [some 509, some 500, some 501]),
        (.relayPacketsAction "provi" "consu" "provider" 0,
          [none, none, none], [some 509, some 0, some 501]),
        (.unjailValidatorAction "provi" "bob",
          [some 509, some 500, some 501], [some 509, some 0, some 501]),
        (.relayPacketsAction "provi" "consu" "provider" 0,
          [none, none, none], [some 509, some 500, some 501]) ] :=
  stepsDowntime_consumer_initiated "consu" (by decide)

/-- C12 as stated fails for the consumer name "provi": the two keys of each
state literal are then equal, the map keeps the consumer's entry, and after the
first relay the power of bob under the key "provi" is 500, not 0. -/
theorem provi_overwrites_provider_state :
    ((stepsDowntime "provi")[1]?).map (fun st => (st.action, st.power "provi" "bob")) =
      some (.relayPacketsAction "provi" "provi" "provider" 0, some 500) ∧
    ((stepsDowntime "provi")[1]?).map (fun st => st.power "provi" "bob") ≠ some (some 0) := by
  decide


/-- C11 (amended): for every consumer name other than "provi", the provider
powers that `stepsDowntime` expects for bob and carol are: bob, whose downtime
the consumer reports, 500 before, 0 while jailed and 500 after his unjailing;
carol, whose downtime the provider detects, 501 before, 0 while jailed and 495
after her unjailing, 6 less than before. -/
theorem stepsDowntime_jailing (consumerName : String) (hname : consumerName ≠ "provi") :
    (stepsDowntime consumerName).map
        (fun st => (st.action, st.power "provi" "bob", st.power "provi" "carol")) =
      [ (.downtimeSlashAction consumerName "bob", some 500, some 501),
        (.relayPacketsAction "provi" consumerName "provider" 0, some 0, some 501),
        (.relayPacketsAction "provi" consumerName "provider" 0, none, none),
        (.unjailValidatorAction "provi" "bob", some 500, some 501),
        (.relayPacketsAction "provi" consumerName "provider" 0, none, none),
        (.downtimeSlashAction "provi" "carol", some 500, some 0),
        (.relayPacketsAction "provi" consumerName "provider" 0, none, none),
        (.unjailValidatorAction "provi" "carol", some 500, some 495),
        (.relayPacketsAction "provi" consumerName "provider" 0, none, none) ] ∧
    (495 : Nat) + 6 = 501 := by
  refine ⟨?_, rfl⟩
  simp only [stepsDowntime, List.map, Step.power,
    GoMap.lookup_pair_fst consumerName _ _ hname,
    GoMap.lookup_single_ne consumerName "provi" _ hname]
  rfl

/-- C11, on the consumer "consu": the table of provider powers of bob and carol. -/
theorem stepsDowntime_jailing_witness :
    (stepsDowntime "consu").map
        (fun st => (st.action, st.power "provi" "bob", st.power "provi" "carol")) =
      [ (.downtimeSlashAction "consu" "bob", some 500, some 501),
        (.relayPacketsAction "provi" "consu" "provider" 0, some 0, some 501),
        (.relayPacketsAction "provi" "consu" "provider" 0, none, none),
        (.unjailValidatorAction "provi" "bob", some 500, some 501),
        (.relayPacketsAction "provi" "consu" "provider" 0, none, none),
        (.downtimeSlashAction "provi" "carol", some 500, some 0),
        (.relayPacketsAction "provi" "consu" "provider" 0, none, none),
        (.unjailValidatorAction "provi" "carol", some 500, some 495),
        (.relayPacketsAction "provi" "consu" "provider" 0, none, none) ] :=
  (stepsDowntime_jailing "consu" (by decide)).1

/-- C11 as stated fails: for the consumer "consu" the provider power of carol
after her unjailing is 495, not the 501 she had before the infraction; and for
the consumer name "provi" the map keeps the consumer's entry, so that bob, when
jailed after the first relay, has power 500 under the key "provi", not 0. -/
theorem carol_slashed_after_unjail :
    ((stepsDowntime "consu")[3]?).map (fun st => st.power "provi" "carol") = some (some 501) ∧
    ((stepsDowntime "consu")[7]?).map (fun st => (st.action, st.power "provi" "carol")) =
      some (.unjailValidatorAction "provi" "carol", some 495) ∧
    ((stepsDowntime "consu")[7]?).map (fun st => st.power "provi" "carol") ≠
      ((stepsDowntime "consu")[3]?).map (fun st => st.power "provi" "carol") ∧
    ((stepsDowntime "provi")[1]?).map (fun st => st.power "provi" "bob") = some (some 500) := by
  decide

/-- C13 (amended): for every consumer name other than "provi", the last four
steps of `stepsDowntime` expect: after the downtime slash of carol on the
provider her power 0 on the provider and still 501 on the consumer; after the
relay 0 on the consumer; after her unjailing 495 on the provider, 6 less than
the 501 she had; after the last relay 495 on the consumer; bob stays at 500 and
alice at 509. -/
theorem stepsDowntime_provider_initiated (consumerName : String)
    (hname : consumerName ≠ "provi") :
    ((stepsDowntime consumerName).drop 5).map
        (fun st => (st.action, st.powers "provi", st.powers consumerName)) =
      [ (.downtimeSlashAction "provi" "carol",
          [some 509, some 500, some 0], [some 509, some 500, some 501]),
        (.relayPacketsAction "provi" consumerName "provider" 0,
          [none, none, none], [some 509, some 500, some 0]),
        (.unjailValidatorAction "provi" "carol",
          [some 509, some 500, some 495], [some 509, some 500, some 0]),
        (.relayPacketsAction "provi" consumerName "provider" 0,
          [none, none, none], [some 509, some 500, some 495]) ] ∧
    (501 : Nat) - 495 = 6 := by
  refine ⟨?_, rfl⟩
  simp only [stepsDowntime, List.drop, List.map, Step.powers, Step.power,
    GoMap.lookup_pair_fst consumerName _ _ hname, GoMap.lookup_pair_snd, GoMap.lookup_single,
    GoMap.lookup_single_ne consumerName "provi" _ hname]
  rfl

/-- C13, on the consumer "consu": the last four steps. -/
theorem stepsDowntime_provider_initiated_witness :
    ((stepsDowntime "consu").drop 5).map
        (fun st => (st.action, st.powers "provi", st.powers "consu")) =
      [ (.downtimeSlashAction "provi" "carol",
          [some 509, some 500, some 0], [some 509, some 500, some 501]),
        (.relayPacketsAction "provi" "consu" "provider" 0,
          [none, none, none], [some 509, some 500, some 0]),
        (.unjailValidatorAction "provi" "carol",
          [some 509, some 500, some 495], [some 509, some 500, some 0]),
        (.relayPacketsAction "provi" "consu" "provider" 0,
          [none, none, none], [some 509, some 500, some 495]) ] :=
  (stepsDowntime_provider_initiated "consu" (by decide)).1

/-- C13 as stated fails for the consumer name "provi": the map keeps the
consumer's entry, and after the downtime slash of carol on the provider her
power under the key "provi" is 501, not 0. -/
theorem provi_overwrites_provider_slash :
    ((stepsDowntime "provi")[5]?).map (fun st => (st.action, st.power "provi" "carol")) =
      some (.downtimeSlashAction "provi" "carol", some 501) ∧
    ((stepsDowntime "provi")[5]?).map (fun st => st.power "provi" "carol") ≠ some (some 0) := by
  decide


theorem GoMap.values_single (c : chainID) (n : Nat) :
    GoMap.values [(c, n)] = [n] := by
  simp [GoMap.values, GoMap.lookup]

/-- C14: in `stepsDowntimeWithOptOut` alice holds 60 of 60 + 500 + 950 = 1510,
strictly below the default threshold of 5% of the total, and for every consumer
name the powers expected on the provider and on the consumer are 60, 500 and 950
in both states, before and after the relay. -/
theorem stepsDowntimeWithOptOut_unchanged (consumerName : String) :
    (stepsDowntimeWithOptOut consumerName).map
        (fun st => (st.action, st.powers "provi", st.powers consumerName,
          st.totalPower "provi")) =
      [ (.downtimeSlashAction consumerName "alice",
          [some 60, some 500, some 950], [some 60, some 500, some 950], 1510),
        (.relayPacketsAction "provi" consumerName "provider" 0,
          [some 60, some 500, some 950], [some 60, some 500, some 950], 1510) ] ∧
    (60 + 500 + 950 = 1510 ∧ 60 * 100 < 5 * 1510) ∧
    (∃ d : Dec, NewDecFromStr DefaultSoftOptOutThreshold = .ok d ∧ d.toRat = 5 / 100 ∧
      (60 : ℚ) < d.toRat * 1510) := by
  refine ⟨?_, by decide, ⟨⟨50000000000000000⟩, rfl, ?_, ?_⟩⟩
  · simp only [stepsDowntimeWithOptOut, List.map, Step.powers, Step.power, Step.totalPower,
      GoMap.lookup_pair_same, GoMap.lookup_pair_snd]
    rfl
  · norm_num [Dec.toRat, Precision]
  · norm_num [Dec.toRat, Precision]

/-- C15 (amended): for every consumer name other than "provi",
`stepsThrottledDowntime` expects on the provider: after the first relay bob
jailed (power 0) and both queue sizes 0; after the relay of the second slash
carol still at 500 and both queue sizes 1; carol at 0 with both queue sizes back
to 0 first after `slashThrottleDequeue` (current queue size 1, next 0), and
again after the last relay. -/
theorem stepsThrottledDowntime_throttling (consumerName : String)
    (hname : consumerName ≠ "provi") :
    (stepsThrottledDowntime consumerName).map
        (fun st => (st.action, st.powers "provi", st.globalQueueSize "provi",
          st.consumerQueueSize "provi" consumerName)) =
      [ (.downtimeSlashAction consumerName "bob",
          [some 511, some 500, some 500], none, none),
        (.relayPacketsAction "provi" consumerName "provider" 0,
          [some 511, some 0, some 500], some 0, some 0),
        (.downtimeSlashAction consumerName "carol",
          [some 511, some 0, some 500], none, none),
        (.relayPacketsAction "provi" consumerName "provider" 0,
          [some 511, some 0, some 500], some 1, some 1),
        (.slashThrottleDequeue consumerName 1 0 (80 * Second),
          [some 511, some 0, some 0], some 0, some 0),
        (.relayPacketsAction "provi" consumerName "provider" 0,
          [some 511, some 0, some 0], some 0, some 0) ] := by
  simp only [stepsThrottledDowntime, List.map, Step.powers, Step.power, Step.globalQueueSize,
    Step.consumerQueueSize, GoMap.lookup_pair_fst consumerName _ _ hname, GoMap.lookup_single]
  rfl

/-- C15, on the consumer "consu". -/
theorem stepsThrottledDowntime_throttling_witness :
    (stepsThrottledDowntime "consu").map
        (fun st => (st.action, st.powers "provi", st.globalQueueSize "provi",
          st.consumerQueueSize "provi" "consu")) =
      [ (.downtimeSlashAction "consu" "bob",
          [some 511, some 500, some 500], none, none),
        (.relayPacketsAction "provi" "consu" "provider" 0,
          [some 511, some 0, some 500], some 0, some 0),
        (.downtimeSlashAction "consu" "carol",
          [some 511, some 0, some 500], none, none),
        (.relayPacketsAction "provi" "consu" "provider" 0,
          [some 511, some 0, some 500], some 1, some 1),
        (.slashThrottleDequeue "consu" 1 0 (80 * Second),
          [some 511, some 0, some 0], some 0, some 0),
        (.relayPacketsAction "provi" "consu" "provider" 0,
          [some 511, some 0, some 0], some 0, some 0) ] :=
  stepsThrottledDowntime_throttling "consu" (by decide)

/-- C15 as stated fails: for the consumer name "provi" the map keeps the
consumer's entry, so that after the first relay bob has power 500 under the key
"provi" and no queue size is set; and for the consumer "consu" the state after
`slashThrottleDequeue` is not the only one with carol at 0 and both queue sizes
0, the state after the last relay has them too. -/
theorem throttle_state_not_unique :
    ((stepsThrottledDowntime "provi")[1]?).map
        (fun st => (st.power "provi" "bob", st.globalQueueSize "provi",
          st.consumerQueueSize "provi" "provi")) = some (some 500, none, none) ∧
    ((stepsThrottledDowntime "consu")[5]?).map
        (fun st => (st.action, st.power "provi" "carol", st.globalQueueSize "provi",
          st.consumerQueueSize "provi" "consu")) =
      some (.relayPacketsAction "provi" "consu" "provider" 0, some 0, some 0, some 0) := by
  decide

/-- C16: in every state that `stepsThrottledDowntime` expects under the
provider's key, for every consumer name, when both the global slash queue size
and the per-consumer queue sizes are set, the former is the sum of the latter. -/
theorem stepsThrottledDowntime_queue_sum (consumerName : String) (st : Step)
    (hst : st ∈ stepsThrottledDowntime consumerName) (g t : Nat)
    (hg : st.globalQueueSize "provi" = some g)
    (ht : st.consumerQueueTotal "provi" = some t) : g = t := by
  have hmem : st = (stepsThrottledDowntime consumerName).getD 0 st ∨
      st = (stepsThrottledDowntime consumerName).getD 1 st ∨
      st = (stepsThrottledDowntime consumerName).getD 2 st ∨
      st = (stepsThrottledDowntime consumerName).getD 3 st ∨
      st = (stepsThrottledDowntime consumerName).getD 4 st ∨
      st = (stepsThrottledDowntime consumerName).getD 5 st := by
    simpa [stepsThrottledDowntime] using hst
  by_cases hname : consumerName = "provi"
  · subst hname
    rcases hmem with h | h | h | h | h | h <;> rw [h] at hg ht <;>
      simp [stepsThrottledDowntime, Step.globalQueueSize, Step.consumerQueueTotal,
        GoMap.lookup] at hg ht
  · rcases hmem with h | h | h | h | h | h <;> rw [h] at hg ht <;>
      simp only [stepsThrottledDowntime, List.getD_cons_zero, List.getD_cons_succ,
        Step.globalQueueSize, Step.consumerQueueTotal,
        GoMap.lookup_pair_fst consumerName _ _ hname, GoMap.values_single,
        Option.some.injEq, List.sum_cons, List.sum_nil, reduceCtorEq] at hg ht <;>
      omega

/-- C16, on the consumer "consu" and the state after the relay of the second
slash: the global queue size 1 is the sum of the per-consumer sizes. -/
theorem stepsThrottledDowntime_queue_sum_witness :
    ((stepsThrottledDowntime "consu")[3]?).map
        (fun st => (st.globalQueueSize "provi", st.consumerQueueTotal "provi")) =
      some (some 1, some 1) ∧ (1 : Nat) = 1 :=
  ⟨by decide,
   stepsThrottledDowntime_queue_sum "consu"
    { action := .relayPacketsAction "provi" "consu" "provider" 0
      state := [
        ("provi",
          { ValPowers := some [("alice", 511), ("bob", 0), ("carol", 500)]
            GlobalSlashQueueSize := some 1
            ConsumerChainQueueSizes := some [("consu", 1)] }),
        ("consu",
          { ValPowers := some [("alice", 511), ("bob", 0), ("carol", 500)] }) ] }
    (by decide) 1 1 (by decide) (by decide)⟩


theorem SlashMeter.allowance_fixture :
    SlashMeter.allowance SlashMeterReplenishFraction 1511 = 151 := by
  unfold SlashMeter.allowance SlashMeterReplenishFraction
  rw [Int.floor_eq_iff]
  constructor <;> norm_num

/-- C17: in the throttled scenario the provider's total power is
511 + 500 + 500 = 1511 and the power of bob is 500; a meter that starts at 10%
of the total and loses the power of bob stands between -24% and -23% of the
total; it is not positive after two replenishments of 10% of the total and is
positive after three, with the 10% cut to an integer as well as taken exactly;
three periods of 20 seconds fit in the 80 seconds of the timeout of
`slashThrottleDequeue`. -/
theorem stepsThrottledDowntime_meter (consumerName : String) :
    ((stepsThrottledDowntime consumerName)[0]?).map
        (fun st => (st.totalPower "provi", st.power "provi" "bob")) = some (1511, some 500) ∧
    (511 + 500 + 500 = 1511 ∧
      SlashMeter.allowance SlashMeterReplenishFraction 1511 = 151) ∧
    ((-24 / 100 : ℚ) * 1511 ≤ ((SlashMeter.jail 151 500 : Int) : ℚ) ∧
      ((SlashMeter.jail 151 500 : Int) : ℚ) ≤ (-23 / 100 : ℚ) * 1511) ∧
    SlashMeter.replenish SlashMeterReplenishFraction 1511
      (SlashMeter.replenish SlashMeterReplenishFraction 1511 (SlashMeter.jail 151 500)) ≤ 0 ∧
    0 < SlashMeter.replenish SlashMeterReplenishFraction 1511
      (SlashMeter.replenish SlashMeterReplenishFraction 1511
        (SlashMeter.replenish SlashMeterReplenishFraction 1511 (SlashMeter.jail 151 500))) ∧
    ((-24 / 100 : ℚ) * 1511 ≤ SlashMeterReplenishFraction * 1511 - 500 ∧
      SlashMeterReplenishFraction * 1511 - 500 ≤ (-23 / 100 : ℚ) * 1511 ∧
      SlashMeterReplenishFraction * 1511 - 500 + 2 * (SlashMeterReplenishFraction * 1511) ≤ 0 ∧
      0 < SlashMeterReplenishFraction * 1511 - 500 + 3 * (SlashMeterReplenishFraction * 1511)) ∧
    ((stepsThrottledDowntime consumerName)[4]?).map (fun st => st.action) =
      some (.slashThrottleDequeue consumerName 1 0 (80 * Second)) ∧
    3 * SlashMeterReplenishPeriod = 60 * Second ∧
    3 * SlashMeterReplenishPeriod ≤ 80 * Second := by
  refine ⟨?_, ⟨rfl, SlashMeter.allowance_fixture⟩, ⟨?_, ?_⟩, ?_, ?_,
    by norm_num [SlashMeterReplenishFraction], rfl, by decide, by decide⟩
  · simp only [stepsThrottledDowntime, List.getElem?_cons_zero, Option.map_some', Step.totalPower,
      Step.power, GoMap.lookup_pair_same]
    rfl
  · norm_num [SlashMeter.jail]
  · norm_num [SlashMeter.jail]
  · simp only [SlashMeter.replenish, SlashMeter.allowance_fixture, SlashMeter.jail]
    decide
  · simp only [SlashMeter.replenish, SlashMeter.allowance_fixture, SlashMeter.jail]
    decide

theorem chopPrecisionAndRound_mul_unit (n : Int) (hn : 0 ≤ n) :
    chopPrecisionAndRound (n * precisionReuse) = n := by
  have hp : precisionReuse ≠ 0 := by decide
  have hnn : ¬ n * precisionReuse < 0 := by
    have : 0 ≤ n * precisionReuse := Int.mul_nonneg hn (by decide)
    omega
  simp only [chopPrecisionAndRound, hnn, if_false, chopPrecisionAndRound.nonneg,
    Int.mul_tmod_left, if_true, Int.mul_tdiv_cancel n hp]

theorem expectedRewards_eq (F : Int) (frac : Dec) (hF : 0 ≤ F) (h0 : 0 ≤ frac.i)
    (h1 : frac.i ≤ precisionReuse) (hfit : BitLen (F * frac.i) ≤ maxDecBitLen) :
    TestRewardsDistribution.expectedRewards F frac =
      .ret (F * frac.i / precisionReuse, F - F * frac.i / precisionReuse) := by
  have hprod : 0 ≤ F * frac.i := Int.mul_nonneg hF h0
  have hmul : (NewDecFromInt F).Mul frac = .ret ⟨F * frac.i⟩ := by
    have he : (NewDecFromInt F).i * frac.i = (F * frac.i) * precisionReuse := by
      simp only [NewDecFromInt]
      ring
    simp only [Dec.Mul, he, chopPrecisionAndRound_mul_unit _ hprod, gt_iff_lt,
      not_lt.mpr hfit, if_false]
  have hq : 0 ≤ F * frac.i / precisionReuse := Int.ediv_nonneg hprod (by decide)
  have hle : F * frac.i / precisionReuse ≤ F := by
    have : F * frac.i ≤ F * precisionReuse := Int.mul_le_mul_of_nonneg_left h1 hF
    calc F * frac.i / precisionReuse ≤ F * precisionReuse / precisionReuse :=
          Int.ediv_le_ediv (by decide) this
      _ = F := Int.mul_ediv_cancel F (by decide)
  have htd : (F * frac.i).tdiv precisionReuse = F * frac.i / precisionReuse :=
    Int.tdiv_eq_ediv hprod (by decide)
  have hbits : BitLen (F * frac.i / precisionReuse) ≤ maxBitLen := by
    rw [BitLen_le_iff] at hfit ⊢
    have h315 : (2 : Nat) ^ maxDecBitLen ≤ 2 ^ maxBitLen * 1000000000000000000 := by
      norm_num [maxDecBitLen, maxBitLen]
    have hdm := Int.ediv_add_emod (F * frac.i) precisionReuse
    have hmod := Int.emod_nonneg (F * frac.i) (show precisionReuse ≠ 0 by decide)
    simp only [precisionReuse] at hdm hmod hq ⊢
    generalize (2 : Nat) ^ maxDecBitLen = A at hfit h315
    generalize (2 : Nat) ^ maxBitLen = B at h315 ⊢
    omega
  have hneg : ¬ F < 0 := by omega
  have hnegp : ¬ F * frac.i < 0 := by omega
  have hprov : ¬ F - F * frac.i / precisionReuse < 0 := by omega
  simp only [TestRewardsDistribution.expectedRewards, hneg, if_false, hmul, hnegp,
    Dec.TruncateInt, htd, gt_iff_lt, not_lt.mpr hbits, hprov]


theorem floor_mul_toRat (F : Int) (frac : Dec) :
    ⌊(F : ℚ) * frac.toRat⌋ = F * frac.i / precisionReuse := by
  have h : (F : ℚ) * frac.toRat =
      (((F * frac.i : Int) : ℚ)) / (((1000000000000000000 : Nat)) : ℚ) := by
    simp only [Dec.toRat, Precision]
    push_cast
    norm_num
    ring
  rw [h, Rat.floor_intCast_div_natCast]
  rfl

theorem Dec.toRat_nonneg_iff (d : Dec) : 0 ≤ d.toRat ↔ 0 ≤ d.i := by
  rw [← not_lt, Dec.toRat_neg_iff, not_lt]

theorem Dec.toRat_le_one_iff (d : Dec) : d.toRat ≤ 1 ↔ d.i ≤ precisionReuse := by
  unfold Dec.toRat
  have hpos : (0 : ℚ) < (10 : ℚ) ^ Precision := by positivity
  rw [div_le_iff₀ hpos, one_mul]
  have : (10 : ℚ) ^ Precision = ((precisionReuse : Int) : ℚ) := by
    norm_num [Precision, precisionReuse]
  rw [this]
  exact Int.cast_le

theorem expectedRewards_panics (F : Int) (frac : Dec) (hF : 0 ≤ F) (h0 : 0 ≤ frac.i)
    (hbig : ¬ BitLen (F * frac.i) ≤ maxDecBitLen) :
    TestRewardsDistribution.expectedRewards F frac = .panic "Int overflow" := by
  have hprod : 0 ≤ F * frac.i := Int.mul_nonneg hF h0
  have he : (NewDecFromInt F).i * frac.i = (F * frac.i) * precisionReuse := by
    simp only [NewDecFromInt]
    ring
  have hneg : ¬ F < 0 := by omega
  simp only [TestRewardsDistribution.expectedRewards, hneg, if_false, Dec.Mul, he,
    chopPrecisionAndRound_mul_unit _ hprod, gt_iff_lt, not_le.mp hbig, if_true]

/-- C18 (amended): for every fee-pool amount F that is not negative and every
fraction f with 0 ≤ f ≤ 1 whose product F·f fits the bit length of an SDK
decimal, the expected reward of the consumer is the integer part of F·f and
that of the provider is F minus it; both are non-negative and they sum to F.
With the default fraction "0.75" and F = 100 they are 75 and 25. -/
theorem expectedRewards_split :
    (∀ (F : Int) (frac : Dec), 0 ≤ F → 0 ≤ frac.toRat → frac.toRat ≤ 1 →
      BitLen (F * frac.i) ≤ maxDecBitLen →
      ∃ consumer provider : Int,
        TestRewardsDistribution.expectedRewards F frac = .ret (consumer, provider) ∧
        consumer = ⌊(F : ℚ) * frac.toRat⌋ ∧ provider = F - consumer ∧
        0 ≤ consumer ∧ 0 ≤ provider ∧ consumer + provider = F) ∧
    (∃ frac : Dec, NewDecFromStr DefaultConsumerRedistributeFrac = .ok frac ∧
      frac.toRat = 75 / 100 ∧
      TestRewardsDistribution.expectedRewards 100 frac = .ret (75, 25)) := by
  constructor
  · intro F frac hF h0 h1 hfit
    rw [Dec.toRat_nonneg_iff] at h0
    rw [Dec.toRat_le_one_iff] at h1
    refine ⟨F * frac.i / precisionReuse, F - F * frac.i / precisionReuse,
      expectedRewards_eq F frac hF h0 h1 hfit, (floor_mul_toRat F frac).symm, rfl, ?_, ?_, ?_⟩
    · exact Int.ediv_nonneg (Int.mul_nonneg hF h0) (by decide)
    · have : F * frac.i ≤ F * precisionReuse := Int.mul_le_mul_of_nonneg_left h1 hF
      have hle : F * frac.i / precisionReuse ≤ F :=
        calc F * frac.i / precisionReuse ≤ F * precisionReuse / precisionReuse :=
              Int.ediv_le_ediv (by decide) this
          _ = F := Int.mul_ediv_cancel F (by decide)
      omega
    · omega
  · refine ⟨⟨750000000000000000⟩, rfl, ?_, by decide⟩
    norm_num [Dec.toRat, Precision]

/-- C18, on an instance: of a fee pool of 7 and the fraction 1/3 (to 18 places)
the consumer expects 2 and the provider 5. -/
theorem expectedRewards_split_witness :
    ∃ consumer provider : Int,
      TestRewardsDistribution.expectedRewards 7 ⟨333333333333333333⟩ =
        .ret (consumer, provider) ∧
      consumer = ⌊((7 : Int) : ℚ) * (Dec.mk 333333333333333333).toRat⌋ ∧
      provider = 7 - consumer ∧ 0 ≤ consumer ∧ 0 ≤ provider ∧ consumer + provider = 7 :=
  expectedRewards_split.1 7 ⟨333333333333333333⟩ (by decide)
    (by norm_num [Dec.toRat, Precision]) (by norm_num [Dec.toRat, Precision])
    ((BitLen_le_iff _ _).2 (by norm_num [maxDecBitLen]))

/-- C18 as stated fails on large amounts: 2^256 - 1 is an `sdk.Int` (256 bits)
and "1" parses to the fraction 1, yet their product does not fit an SDK decimal
and the computation of the expected rewards panics with "Int overflow". -/
theorem rewards_product_overflow :
    BitLen (2 ^ 256 - 1) ≤ maxBitLen ∧
    NewDecFromStr "1" = .ok ⟨1000000000000000000⟩ ∧
    (Dec.mk 1000000000000000000).toRat = 1 ∧
    TestRewardsDistribution.expectedRewards (2 ^ 256 - 1) ⟨1000000000000000000⟩ =
      .panic "Int overflow" := by
  refine ⟨(BitLen_le_iff _ _).2 (by norm_num [maxBitLen]), rfl,
    by norm_num [Dec.toRat, Precision], ?_⟩
  apply expectedRewards_panics
  · norm_num
  · norm_num
  · rw [BitLen_le_iff]
    norm_num [maxDecBitLen]

/-- C19: for heights with
0 ≤ currentHeight - lastTransmissionHeight ≤ blocksPerDistributionTransmission,
the latter an `int64`,
`blocksToGo` is `bpdt - (currentHeight - lastTransmissionHeight)` and is not
negative, the conversion to `uint64` does not change it, and the current height
plus the blocks committed is the last transmission height plus `bpdt`. -/
theorem prepareRewardDist_next_transmission (bpdt currentHeight lastTransHeight : Int)
    (hb : isInt64 bpdt)
    (h0 : 0 ≤ currentHeight - lastTransHeight)
    (h1 : currentHeight - lastTransHeight ≤ bpdt) :
    prepareRewardDist.blocksToGo bpdt currentHeight lastTransHeight =
      bpdt - (currentHeight - lastTransHeight) ∧
    0 ≤ prepareRewardDist.blocksToGo bpdt currentHeight lastTransHeight ∧
    (prepareRewardDist bpdt currentHeight lastTransHeight : Int) =
      prepareRewardDist.blocksToGo bpdt currentHeight lastTransHeight ∧
    currentHeight + (prepareRewardDist bpdt currentHeight lastTransHeight : Int) =
      lastTransHeight + bpdt := by
  unfold isInt64 at hb
  have e63 : (2 : Int) ^ 63 = 9223372036854775808 := by norm_num
  have e64 : (2 : Int) ^ 64 = 18446744073709551616 := by norm_num
  rw [e63] at hb
  have hgo : prepareRewardDist.blocksToGo bpdt currentHeight lastTransHeight =
      bpdt - (currentHeight - lastTransHeight) := by
    simp only [prepareRewardDist.blocksToGo, wrapInt64, e63, e64]
    omega
  have hu : (prepareRewardDist bpdt currentHeight lastTransHeight : Int) =
      bpdt - (currentHeight - lastTransHeight) := by
    simp only [prepareRewardDist, toUint64, hgo, e64]
    omega
  refine ⟨hgo, ?_, ?_, ?_⟩
  · rw [hgo]
    omega
  · rw [hu, hgo]
  · rw [hu]
    omega

/-- C19, on an instance: with 1000 blocks per transmission, at height 705 and
the last transmission at height 5, 300 blocks are committed, up to height 1005. -/
theorem prepareRewardDist_next_transmission_witness :
    prepareRewardDist.blocksToGo 1000 705 5 = 1000 - (705 - 5) ∧
    0 ≤ prepareRewardDist.blocksToGo 1000 705 5 ∧
    (prepareRewardDist 1000 705 5 : Int) = prepareRewardDist.blocksToGo 1000 705 5 ∧
    (705 : Int) + (prepareRewardDist 1000 705 5 : Int) = 5 + 1000 :=
  prepareRewardDist_next_transmission 1000 705 5 (by decide) (by decide) (by decide)

/-- C20: `NewParams` stores each of its twelve arguments in the field of the
same meaning; no two arguments of the same type are swapped. -/
theorem NewParams_fields (enabled : Bool) (blocksPerDistributionTransmission : Int)
    (distributionTransmissionChannel providerFeePoolAddrStr : String)
    (ccvTimeoutPeriod transferTimeoutPeriod : Int)
    (consumerRedistributionFraction : String) (historicalEntries : Int)
    (consumerUnbondingPeriod : Int) (softOptOutThreshold : String)
    (rewardDenoms providerRewardDenoms : List String) :
    NewParams enabled blocksPerDistributionTransmission distributionTransmissionChannel
        providerFeePoolAddrStr ccvTimeoutPeriod transferTimeoutPeriod
        consumerRedistributionFraction historicalEntries consumerUnbondingPeriod
        softOptOutThreshold rewardDenoms providerRewardDenoms =
      { Enabled := enabled
        BlocksPerDistributionTransmission := blocksPerDistributionTransmission
        DistributionTransmissionChannel := distributionTransmissionChannel
        ProviderFeePoolAddrStr := providerFeePoolAddrStr
        CcvTimeoutPeriod := ccvTimeoutPeriod
        TransferTimeoutPeriod := transferTimeoutPeriod
        ConsumerRedistributionFraction := consumerRedistributionFraction
        HistoricalEntries := historicalEntries
        UnbondingPeriod := consumerUnbondingPeriod
        SoftOptOutThreshold := softOptOutThreshold
        RewardDenoms := rewardDenoms
        ProviderRewardDenoms := providerRewardDenoms } ∧
    (let p := NewParams enabled blocksPerDistributionTransmission
        distributionTransmissionChannel providerFeePoolAddrStr ccvTimeoutPeriod
        transferTimeoutPeriod consumerRedistributionFraction historicalEntries
        consumerUnbondingPeriod softOptOutThreshold rewardDenoms providerRewardDenoms
     p.Enabled = enabled ∧
     p.BlocksPerDistributionTransmission = blocksPerDistributionTransmission ∧
     p.DistributionTransmissionChannel = distributionTransmissionChannel ∧
     p.ProviderFeePoolAddrStr = providerFeePoolAddrStr ∧
     p.CcvTimeoutPeriod = ccvTimeoutPeriod ∧
     p.TransferTimeoutPeriod = transferTimeoutPeriod ∧
     p.ConsumerRedistributionFraction = consumerRedistributionFraction ∧
     p.HistoricalEntries = historicalEntries ∧
     p.UnbondingPeriod = consumerUnbondingPeriod ∧
     p.SoftOptOutThreshold = softOptOutThreshold ∧
     p.RewardDenoms = rewardDenoms ∧
     p.ProviderRewardDenoms = providerRewardDenoms) :=
  ⟨rfl, rfl, rfl, rfl, rfl, rfl, rfl, rfl, rfl, rfl, rfl, rfl, rfl⟩

/-! ## `ParamSetPairs` and the parameter store keys -/

theorem ParamSetPairs.validateAll_nil_iff (pairs : List ParamSetPair) :
    ParamSetPairs.validateAll pairs = .ret none ↔
      ∀ pair ∈ pairs, pair.ValidatorFn pair.Value = .ret none := by
  induction pairs with
  | nil => simp [ParamSetPairs.validateAll]
  | cons pair rest ih =>
    simp only [ParamSetPairs.validateAll, check_eq_nil_iff, ih, List.mem_cons, forall_eq_or_imp]

/-- C21: `ParamSetPairs` returns twelve pairs, one per field of `Params` and in
the order of the checks of `Params.Validate`; each pair carries the current
value of its field and the validator that `Params.Validate` applies to that
field; running the validators of the pairs on their values is `Params.Validate`,
and `Validate` returns nil exactly when every pair's validator accepts the value
of its pair. -/
theorem Params.Validate_agrees_with_ParamSetPairs (D : Deps) (KeyCCVTimeoutPeriod : List UInt8)
    (p : Params) :
    (p.ParamSetPairs D KeyCCVTimeoutPeriod).length = 12 ∧
    (p.ParamSetPairs D KeyCCVTimeoutPeriod).map (fun pair => (pair.Key, pair.Value)) =
      [ (KeyEnabled, .bool p.Enabled),
        (KeyBlocksPerDistributionTransmission, .int64 p.BlocksPerDistributionTransmission),
        (KeyDistributionTransmissionChannel, .string p.DistributionTransmissionChannel),
        (KeyProviderFeePoolAddrStr, .string p.ProviderFeePoolAddrStr),
        (KeyCCVTimeoutPeriod, .duration p.CcvTimeoutPeriod),
        (KeyTransferTimeoutPeriod, .duration p.TransferTimeoutPeriod),
        (KeyConsumerRedistributionFrac, .string p.ConsumerRedistributionFraction),
        (KeyHistoricalEntries, .int64 p.HistoricalEntries),
        (KeyConsumerUnbondingPeriod, .duration p.UnbondingPeriod),
        (KeySoftOptOutThreshold, .string p.SoftOptOutThreshold),
        (KeyRewardDenoms, .strings p.RewardDenoms),
        (KeyProviderRewardDenoms, .strings p.ProviderRewardDenoms) ] ∧
    (p.ParamSetPairs D KeyCCVTimeoutPeriod).map (fun pair => pair.ValidatorFn) =
      [ validator D.ValidateBool,
        validator D.ValidatePositiveInt64,
        validator D.ValidateDistributionTransmissionChannel,
        validator (ValidateProviderFeePoolAddrStr D),
        validator D.ValidateDuration,
        validator D.ValidateDuration,
        validator D.ValidateStringFraction,
        validator D.ValidatePositiveInt64,
        validator D.ValidateDuration,
        ValidateSoftOptOutThreshold,
        validator (ValidateDenoms D),
        validator (ValidateDenoms D) ] ∧
    p.Validate D = ParamSetPairs.validateAll (p.ParamSetPairs D KeyCCVTimeoutPeriod) ∧
    (p.Validate D = .ret none ↔
      ∀ pair ∈ p.ParamSetPairs D KeyCCVTimeoutPeriod,
        pair.ValidatorFn pair.Value = .ret none) := by
  have hrun : p.Validate D =
      ParamSetPairs.validateAll (p.ParamSetPairs D KeyCCVTimeoutPeriod) := rfl
  refine ⟨rfl, rfl, rfl, hrun, ?_⟩
  rw [hrun]
  exact ParamSetPairs.validateAll_nil_iff _

/-- C21, on an instance: every pair of the default parameters passes its
validator, and so `Validate` accepts the default parameters. -/
theorem Params.Validate_agrees_with_ParamSetPairs_witness :
    Params.Validate specDeps (DefaultParams 0) = .ret none :=
  (Params.Validate_agrees_with_ParamSetPairs specDeps (bytes "CcvTimeoutPeriod")
    (DefaultParams 0)).2.2.2.2.2 (by decide)

/-- C22: the eleven parameter store keys declared in `params.go` are pairwise
distinct byte strings; they are the keys of the pairs of `ParamSetPairs` other
than the fifth, whose key is declared elsewhere; so no two of these pairs have
the same key, and all twelve keys are distinct when the fifth is none of the
eleven. -/
theorem declaredKeys_distinct :
    declaredKeys.length = 11 ∧ declaredKeys.Nodup ∧
    declaredKeys =
      [ bytes "Enabled", bytes "BlocksPerDistributionTransmission",
        bytes "DistributionTransmissionChannel", bytes "ProviderFeePoolAddrStr",
        bytes "TransferTimeoutPeriod", bytes "ConsumerRedistributionFraction",
        bytes "HistoricalEntries", bytes "UnbondingPeriod", bytes "SoftOptOutThreshold",
        bytes "RewardDenoms", bytes "ProviderRewardDenoms" ] ∧
    (∀ (D : Deps) (KeyCCVTimeoutPeriod : List UInt8) (p : Params),
      ((p.ParamSetPairs D KeyCCVTimeoutPeriod).map (fun pair => pair.Key)).eraseIdx 4 =
        declaredKeys) ∧
    (∀ (D : Deps) (KeyCCVTimeoutPeriod : List UInt8) (p : Params),
      KeyCCVTimeoutPeriod ∉ declaredKeys →
      ((p.ParamSetPairs D KeyCCVTimeoutPeriod).map (fun pair => pair.Key)).Nodup) := by
  have hnodup : declaredKeys.Nodup := by decide
  refine ⟨rfl, hnodup, rfl, fun _ _ _ => rfl, fun D K p hK => ?_⟩
  have hkeys : (p.ParamSetPairs D K).map (fun pair => pair.Key) =
      declaredKeys.take 4 ++ K :: declaredKeys.drop 4 := rfl
  rw [hkeys, List.nodup_middle, List.take_append_drop]
  exact List.nodup_cons.2 ⟨hK, hnodup⟩

/-- C22, on the key "CcvTimeoutPeriod" for the fifth pair: the twelve keys of
the pairs of the default parameters are pairwise distinct. -/
theorem declaredKeys_distinct_witness :
    (((DefaultParams 0).ParamSetPairs specDeps (bytes "CcvTimeoutPeriod")).map
      (fun pair => pair.Key)).Nodup :=
  declaredKeys_distinct.2.2.2.2 specDeps (bytes "CcvTimeoutPeriod") (DefaultParams 0)
    (by decide)

end CCV
